import Mathlib

/-!
Shallow embedding of the MyTube REST controllers (tweet, playlist, like,
comment, video) and proofs about their request-handling contracts.

Conventions of the embedding:
* Document identifiers (Mongo ObjectIds) are modelled as canonical strings
  (`ObjId`); casting a request parameter string to an ObjectId is modelled as
  the identity on such strings, so query equality is string equality.
* Each controller handler becomes a pure function from its request inputs and
  a database snapshot `DB` to `(outcome, new database, storage trace)`.
  The storage trace lists, in order, the storage operations executed, so that
  "storage was never accessed" is expressible as the trace being empty.
* JavaScript truthiness on request-body strings (`!content`) together with
  the explicit `content.trim() === ""` check collapses to: the field is
  absent (`none`) or trims to the empty string.
* `mongoose.isValidObjectId` accepts 24-character hex strings and any
  12-character string.
-/

/-- Canonical ObjectId strings; request parameters arrive as raw strings. -/
abbrev ObjId := String

/-- Hex digit test used by the ObjectId format check (0-9, a-f, A-F). -/
def isHexDigit (c : Char) : Bool :=
  (48 ≤ c.toNat && c.toNat ≤ 57) || (97 ≤ c.toNat && c.toNat ≤ 102) ||
    (65 ≤ c.toNat && c.toNat ≤ 70)

/-- Model of `mongoose.isValidObjectId` on strings: a 24-character hex
string, or any 12-character string (12-byte castable value). -/
def isValidObjectId (s : String) : Bool :=
  (s.toList.length == 24 && s.toList.all isHexDigit) || s.toList.length == 12

/-- JavaScript whitespace test for the characters `String.prototype.trim`
removes (space and the usual control whitespace). -/
def isJsWS (c : Char) : Bool :=
  c.toNat == 32 || (9 ≤ c.toNat && c.toNat ≤ 13)

/-- Model of JavaScript `s.trim()`. -/
def jsTrim (s : String) : List Char :=
  ((s.toList.dropWhile isJsWS).reverse.dropWhile isJsWS).reverse

/-- Model of the controllers' required-text check
`!content || content.trim() === ""`: the body field is absent, or is a
string that is empty after trimming (the empty string is JS-falsy and is
also caught by the trim test, so the two collapse). -/
def isBlank : Option String → Bool
  | none => true
  | some s => jsTrim s == []

/-- `utils/apiError.js`: application error carrying an HTTP status code. -/
structure APIError where
  statusCode : Nat
  message : String
deriving Repr, DecidableEq

/-- `utils/apiResponse.js`: uniform success envelope
`(statusCode, data, message, success = statusCode < 400)`. -/
structure APIResponse (α : Type) where
  statusCode : Nat
  data : α
  message : String
  success : Bool
deriving Repr, DecidableEq

/-- The `APIResponse` constructor: `success` is derived as
`statusCode < 400`. -/
def APIResponse.make (statusCode : Nat) (data : α) (message : String) :
    APIResponse α :=
  ⟨statusCode, data, message, decide (statusCode < 400)⟩

/-- Outcome of one handler invocation: either `res.status(h).json(env)` or a
thrown `APIError` (forwarded by the async wrapper to the central error
translator). -/
inductive HOut (α : Type) where
  | json (httpStatus : Nat) (env : APIResponse α)
  | thrown (e : APIError)
deriving Repr, DecidableEq

/-- A Like document: exactly one of `video`/`comment`/`tweet` is set in
practice; presence of the record is the liked state (no boolean flag). -/
structure LikeDoc where
  _id : Nat
  video : Option ObjId
  comment : Option ObjId
  tweet : Option ObjId
  likedBy : ObjId
  createdAt : Nat
deriving Repr, DecidableEq

/-- A User document (only the fields the pipelines touch). -/
structure UserDoc where
  _id : ObjId
  username : String
  fullName : String
  avatar : String
deriving Repr, DecidableEq

/-- A Tweet document. -/
structure TweetDoc where
  _id : ObjId
  content : String
  owner : ObjId
  createdAt : Nat
deriving Repr, DecidableEq

/-- A Comment document. -/
structure CommentDoc where
  _id : ObjId
  content : String
  video : ObjId
  owner : ObjId
  createdAt : Nat
deriving Repr, DecidableEq

/-- A Playlist document. -/
structure PlaylistDoc where
  _id : ObjId
  name : String
  description : String
  owner : ObjId
  videos : List ObjId
  createdAt : Nat
  updatedAt : Nat
deriving Repr, DecidableEq

/-- A Video document. -/
structure VideoDoc where
  _id : ObjId
  videoFile : String
  thumbnail : String
  title : String
  description : String
  duration : Nat
  views : Nat
  isPublished : Bool
  owner : ObjId
  createdAt : Nat
  updatedAt : Nat
deriving Repr, DecidableEq

/-- A Subscription document (read by the video-detail pipeline). -/
structure SubDoc where
  channel : ObjId
  subscriber : ObjId
deriving Repr, DecidableEq

/-- Database snapshot: one list per collection, in storage (insertion)
order, plus a counter for fresh Like ids, a generator counter for fresh
string ids, and the current clock used for `createdAt` timestamps. -/
structure DB where
  users : List UserDoc
  videos : List VideoDoc
  tweets : List TweetDoc
  comments : List CommentDoc
  playlists : List PlaylistDoc
  likes : List LikeDoc
  subs : List SubDoc
  nextLikeId : Nat
  nextId : Nat
  now : Nat
deriving Repr, DecidableEq

/-- Fresh ObjectId string generated by the storage engine on insert. -/
def newObjId (n : Nat) : ObjId := "oid" ++ toString n

/-- Does a Like record for (video target, requester) exist? Mirrors the
`Like.findOne({video, likedBy})` query predicate. -/
def likeMatchesVideo (vid uid : ObjId) (l : LikeDoc) : Bool :=
  l.video == some vid && l.likedBy == uid

/-- Query predicate of `Like.findOne({comment, likedBy})`. -/
def likeMatchesComment (cid uid : ObjId) (l : LikeDoc) : Bool :=
  l.comment == some cid && l.likedBy == uid

/-- Query predicate of `Like.findOne({tweet, likedBy})`. -/
def likeMatchesTweet (tid uid : ObjId) (l : LikeDoc) : Bool :=
  l.tweet == some tid && l.likedBy == uid

/-- Liked state of a (video, user) pair: presence of a matching record. -/
def isLikedVideoState (db : DB) (vid uid : ObjId) : Bool :=
  db.likes.any (likeMatchesVideo vid uid)

/-- Liked state of a (comment, user) pair. -/
def isLikedCommentState (db : DB) (cid uid : ObjId) : Bool :=
  db.likes.any (likeMatchesComment cid uid)

/-- Liked state of a (tweet, user) pair. -/
def isLikedTweetState (db : DB) (tid uid : ObjId) : Bool :=
  db.likes.any (likeMatchesTweet tid uid)

/-- Response data `{isLiked}` of the toggle endpoints. -/
structure IsLikedData where
  isLiked : Bool
deriving Repr, DecidableEq

/-- `toggleVideoLike` (like.controller.js): validate id, look up the
(video, requester) Like; delete it and answer 200 `isLiked:false` when
present, insert one and answer 201 `isLiked:true` when absent. -/
def toggleVideoLike (videoId : String) (userId : ObjId) (db : DB) :
    HOut IsLikedData × DB × List String :=
  if !(isValidObjectId videoId) then
    (.thrown ⟨400, "Invalid video ID"⟩, db, [])
  else
    match db.likes.find? (likeMatchesVideo videoId userId) with
    | some l =>
        (.json 200 (APIResponse.make 200 ⟨false⟩ "Video unliked successfully"),
         { db with likes := db.likes.filter (fun d => d._id != l._id) },
         ["Like.findOne", "Like.findByIdAndDelete"])
    | none =>
        (.json 201 (APIResponse.make 201 ⟨true⟩ "Video liked successfully"),
         { db with
            likes := db.likes ++
              [⟨db.nextLikeId, some videoId, none, none, userId, db.now⟩],
            nextLikeId := db.nextLikeId + 1 },
         ["Like.findOne", "Like.create"])

/-- `toggleCommentLike` (like.controller.js). -/
def toggleCommentLike (commentId : String) (userId : ObjId) (db : DB) :
    HOut IsLikedData × DB × List String :=
  if !(isValidObjectId commentId) then
    (.thrown ⟨400, "Invalid comment ID"⟩, db, [])
  else
    match db.likes.find? (likeMatchesComment commentId userId) with
    | some l =>
        (.json 200
          (APIResponse.make 200 ⟨false⟩ "Comment unliked successfully"),
         { db with likes := db.likes.filter (fun d => d._id != l._id) },
         ["Like.findOne", "Like.findByIdAndDelete"])
    | none =>
        (.json 201 (APIResponse.make 201 ⟨true⟩ "Comment liked successfully"),
         { db with
            likes := db.likes ++
              [⟨db.nextLikeId, none, some commentId, none, userId, db.now⟩],
            nextLikeId := db.nextLikeId + 1 },
         ["Like.findOne", "Like.create"])

/-- `toggleTweetLike` (like.controller.js). -/
def toggleTweetLike (tweetId : String) (userId : ObjId) (db : DB) :
    HOut IsLikedData × DB × List String :=
  if !(isValidObjectId tweetId) then
    (.thrown ⟨400, "Invalid tweet ID"⟩, db, [])
  else
    match db.likes.find? (likeMatchesTweet tweetId userId) with
    | some l =>
        (.json 200 (APIResponse.make 200 ⟨false⟩ "Tweet unliked successfully"),
         { db with likes := db.likes.filter (fun d => d._id != l._id) },
         ["Like.findOne", "Like.findByIdAndDelete"])
    | none =>
        (.json 201 (APIResponse.make 201 ⟨true⟩ "Tweet liked successfully"),
         { db with
            likes := db.likes ++
              [⟨db.nextLikeId, none, none, some tweetId, userId, db.now⟩],
            nextLikeId := db.nextLikeId + 1 },
         ["Like.findOne", "Like.create"])

/-- Insert `x` into `l` before the first element `y` with `le x y`;
building block of the model of the aggregation `$sort` stage. -/
def insertLe (le : α → α → Bool) (x : α) : List α → List α
  | [] => [x]
  | y :: ys => if le x y then x :: y :: ys else y :: insertLe le x ys

/-- Model of the aggregation `$sort` stage: stable insertion sort by the
boolean relation `le`. -/
def sortLe (le : α → α → Bool) : List α → List α
  | [] => []
  | x :: xs => insertLe le x (sortLe le xs)

/-- Membership in an insertion step. -/
theorem mem_insertLe (le : α → α → Bool) (x : α) (l : List α) (b : α) :
    b ∈ insertLe le x l ↔ b = x ∨ b ∈ l := by
  induction l with
  | nil => simp [insertLe]
  | cons y ys ih =>
      by_cases hxy : le x y = true <;>
        (simp [insertLe, hxy, ih]; try tauto)

/-- Inserting into a `le`-sorted list keeps it sorted, for a total
transitive `le`. -/
theorem pairwise_insertLe {le : α → α → Bool}
    (total : ∀ a b, le a b = true ∨ le b a = true)
    (htr : ∀ a b c, le a b = true → le b c = true → le a c = true)
    (x : α) {l : List α} (h : l.Pairwise (fun a b => le a b = true)) :
    (insertLe le x l).Pairwise (fun a b => le a b = true) := by
  induction l with
  | nil => simp [insertLe]
  | cons y ys ih =>
      rw [List.pairwise_cons] at h
      obtain ⟨hy, hys⟩ := h
      by_cases hxy : le x y = true
      · rw [insertLe, if_pos hxy, List.pairwise_cons]
        refine ⟨?_, List.pairwise_cons.2 ⟨hy, hys⟩⟩
        intro b hb
        rcases List.mem_cons.1 hb with rfl | hb
        · exact hxy
        · exact htr _ _ _ hxy (hy b hb)
      · rw [insertLe, if_neg hxy, List.pairwise_cons]
        refine ⟨?_, ih hys⟩
        intro b hb
        rcases (mem_insertLe le x ys b).1 hb with rfl | hb
        · rcases total b y with hby | hyb
          · exact absurd hby hxy
          · exact hyb
        · exact hy b hb

/-- The sort model produces a `le`-sorted list for total transitive `le`. -/
theorem pairwise_sortLe {le : α → α → Bool}
    (total : ∀ a b, le a b = true ∨ le b a = true)
    (htr : ∀ a b c, le a b = true → le b c = true → le a c = true)
    (l : List α) :
    (sortLe le l).Pairwise (fun a b => le a b = true) := by
  induction l with
  | nil => simp [sortLe]
  | cons x xs ih => exact pairwise_insertLe total htr x ih

/-- The sort model permutes its input. -/
theorem sortLe_perm (le : α → α → Bool) (l : List α) :
    List.Perm (sortLe le l) l := by
  induction l with
  | nil => simp [sortLe]
  | cons x xs ih =>
      have hins : ∀ (y : α) (m : List α),
          List.Perm (insertLe le y m) (y :: m) := by
        intro y m
        induction m with
        | nil => simp [insertLe]
        | cons z zs ihm =>
            by_cases hzy : le y z = true
            · simp [insertLe, hzy]
            · rw [insertLe, if_neg hzy]
              exact List.Perm.trans (List.Perm.cons z ihm)
                (List.Perm.swap y z zs)
      exact List.Perm.trans (hins x (sortLe le xs)) (List.Perm.cons x ih)

/-- Descending order on creation time, as used by `$sort createdAt: -1`. -/
def descBy (key : α → Nat) (a b : α) : Bool :=
  Nat.ble (key b) (key a)

/-- `descBy` is total. -/
theorem descBy_total (key : α → Nat) (a b : α) :
    descBy key a b = true ∨ descBy key b a = true := by
  simp only [descBy, Nat.ble_eq]
  omega

/-- `descBy` is transitive. -/
theorem descBy_trans (key : α → Nat) (a b c : α)
    (h1 : descBy key a b = true) (h2 : descBy key b c = true) :
    descBy key a c = true := by
  simp only [descBy, Nat.ble_eq] at h1 h2 ⊢
  omega

/-- Update-in-place of the document with the given id, as performed by
`findByIdAndUpdate`; all other documents are untouched. -/
def updateById (getId : α → ObjId) (i : ObjId) (f : α → α) (l : List α) :
    List α :=
  l.map (fun d => if getId d == i then f d else d)

/-- Public-safe user projection `(username, fullName, avatar)` used by all
the owner lookups (`_id` is kept by default by the projection). -/
structure UserView where
  _id : ObjId
  username : String
  fullName : String
  avatar : String
deriving Repr, DecidableEq

/-- Projection of a user document to its public-safe view. -/
def userView (u : UserDoc) : UserView :=
  ⟨u._id, u.username, u.fullName, u.avatar⟩

/-- Owner lookup collapsed by `$first`: join users on `_id = ownerId`,
project, take the first element of the joined array. -/
def ownerLookup (db : DB) (ownerId : ObjId) : Option UserView :=
  ((db.users.filter (fun u => u._id == ownerId)).map userView).head?

/-- Page slice and metadata returned by `aggregatePaginate`. -/
structure Paginated (α : Type) where
  docs : List α
  totalDocs : Nat
  page : Nat
  limit : Nat
deriving Repr, DecidableEq

/-- Model of `aggregatePaginate`: page/limit slicing over the full
aggregation result, with total count metadata. -/
def aggregatePaginate (l : List α) (page limit : Nat) : Paginated α :=
  ⟨(l.drop ((page - 1) * limit)).take limit, l.length, page, limit⟩

/-- `createTweet` (tweet controller): blank content is rejected with 400,
otherwise the tweet is stored with the submitted content verbatim and the
reply is 201.  (The source's `if (!tweet) throw 500` guard cannot fire in
the model because `create` always yields the inserted document.) -/
def createTweet (content : Option String) (userId : ObjId) (db : DB) :
    HOut TweetDoc × DB × List String :=
  if isBlank content then
    (.thrown ⟨400, "Tweet content is required"⟩, db, [])
  else
    let t : TweetDoc := ⟨newObjId db.nextId, content.getD "", userId, db.now⟩
    (.json 201 (APIResponse.make 201 t "Tweet created successfully"),
     { db with tweets := db.tweets ++ [t], nextId := db.nextId + 1 },
     ["Tweet.create"])

/-- Read model item of `getUserTweets` after the final projection. -/
structure TweetView where
  content : String
  owner : Option UserView
  likesCount : Nat
  createdAt : Nat
deriving Repr, DecidableEq

/-- Join/addFields part of the `getUserTweets` pipeline for one tweet. -/
def tweetJoin (db : DB) (t : TweetDoc) : TweetView :=
  ⟨t.content, ownerLookup db t.owner,
   (db.likes.filter (fun l => l.tweet == some t._id)).length,
   t.createdAt⟩

/-- `getUserTweets`: match on owner, join owner and likes, sort by
`createdAt` descending, project.  (The source sorts between the
addFields and project stages; the join is a per-document map preserving
`createdAt`, so joining before sorting yields the same list.) -/
def getUserTweets (userId : String) (db : DB) :
    HOut (List TweetView) × DB × List String :=
  if !(isValidObjectId userId) then
    (.thrown ⟨400, "Invalid user ID"⟩, db, [])
  else
    let matched := db.tweets.filter (fun t => t.owner == userId)
    let joined := matched.map (tweetJoin db)
    let sorted := sortLe (descBy TweetView.createdAt) joined
    (.json 200 (APIResponse.make 200 sorted "Tweets fetched successfully"),
     db, ["Tweet.aggregate"])

/-- `updateTweet`: content check, then id shape check, then existence
(404), then ownership (403), then the update returning the new document. -/
def updateTweet (tweetId : String) (content : Option String)
    (userId : ObjId) (db : DB) :
    HOut (Option TweetDoc) × DB × List String :=
  if isBlank content then
    (.thrown ⟨400, "Tweet content is required"⟩, db, [])
  else if !(isValidObjectId tweetId) then
    (.thrown ⟨400, "Invalid tweet ID"⟩, db, [])
  else
    match db.tweets.find? (fun t => t._id == tweetId) with
    | none => (.thrown ⟨404, "Tweet not found"⟩, db, ["Tweet.findById"])
    | some t =>
        if t.owner != userId then
          (.thrown ⟨403, "You are not authorized to update this tweet"⟩,
           db, ["Tweet.findById"])
        else
          let tweets1 := updateById TweetDoc._id tweetId
            (fun d => { d with content := content.getD "" }) db.tweets
          (.json 200
            (APIResponse.make 200 (tweets1.find? (fun d => d._id == tweetId))
              "Tweet updated successfully"),
           { db with tweets := tweets1 },
           ["Tweet.findById", "Tweet.findByIdAndUpdate"])

/-- `deleteTweet`: id shape check, existence (404), ownership (403),
deletion; the success payload is the empty object. -/
def deleteTweet (tweetId : String) (userId : ObjId) (db : DB) :
    HOut Unit × DB × List String :=
  if !(isValidObjectId tweetId) then
    (.thrown ⟨400, "Invalid tweet ID"⟩, db, [])
  else
    match db.tweets.find? (fun t => t._id == tweetId) with
    | none => (.thrown ⟨404, "Tweet not found"⟩, db, ["Tweet.findById"])
    | some t =>
        if t.owner != userId then
          (.thrown ⟨403, "You are not authorized to delete this tweet"⟩,
           db, ["Tweet.findById"])
        else
          (.json 200 (APIResponse.make 200 () "Tweet deleted successfully"),
           { db with tweets := db.tweets.filter (fun d => d._id != tweetId) },
           ["Tweet.findById", "Tweet.findByIdAndDelete"])

/-- Read model item of `getVideoComments` (no final projection: document
fields plus the collapsed owner object). -/
structure CommentView where
  _id : ObjId
  content : String
  video : ObjId
  owner : Option UserView
  createdAt : Nat
deriving Repr, DecidableEq

/-- Join/addFields part of the `getVideoComments` pipeline. -/
def commentJoin (db : DB) (c : CommentDoc) : CommentView :=
  ⟨c._id, c.content, c.video, ownerLookup db c.owner, c.createdAt⟩

/-- `getVideoComments`: match on video, join owner, sort by `createdAt`
descending, paginate with the caller's page/limit. -/
def getVideoComments (videoId : String) (page limit : Nat) (db : DB) :
    HOut (Paginated CommentView) × DB × List String :=
  if !(isValidObjectId videoId) then
    (.thrown ⟨400, "Invalid video ID"⟩, db, [])
  else
    let matched := db.comments.filter (fun c => c.video == videoId)
    let joined := matched.map (commentJoin db)
    let sorted := sortLe (descBy CommentView.createdAt) joined
    (.json 200
      (APIResponse.make 200 (aggregatePaginate sorted page limit)
        "Comments fetched successfully"),
     db, ["Comment.aggregatePaginate"])

/-- `addComment`: content check first, then video id shape check, then the
insert; the stored content is the submitted string verbatim. -/
def addComment (videoId : String) (content : Option String)
    (userId : ObjId) (db : DB) :
    HOut CommentDoc × DB × List String :=
  if isBlank content then
    (.thrown ⟨400, "Comment content is required"⟩, db, [])
  else if !(isValidObjectId videoId) then
    (.thrown ⟨400, "Invalid video ID"⟩, db, [])
  else
    let c : CommentDoc :=
      ⟨newObjId db.nextId, content.getD "", videoId, userId, db.now⟩
    (.json 201 (APIResponse.make 201 c "Comment added successfully"),
     { db with comments := db.comments ++ [c], nextId := db.nextId + 1 },
     ["Comment.create"])

/-- `updateComment`: content check, id shape check, existence (404),
ownership (403), then the update returning the new document. -/
def updateComment (commentId : String) (content : Option String)
    (userId : ObjId) (db : DB) :
    HOut (Option CommentDoc) × DB × List String :=
  if isBlank content then
    (.thrown ⟨400, "Comment content is required"⟩, db, [])
  else if !(isValidObjectId commentId) then
    (.thrown ⟨400, "Invalid comment ID"⟩, db, [])
  else
    match db.comments.find? (fun c => c._id == commentId) with
    | none => (.thrown ⟨404, "Comment not found"⟩, db, ["Comment.findById"])
    | some c =>
        if c.owner != userId then
          (.thrown ⟨403, "You are not authorized to update this comment"⟩,
           db, ["Comment.findById"])
        else
          let comments1 := updateById CommentDoc._id commentId
            (fun d => { d with content := content.getD "" }) db.comments
          (.json 200
            (APIResponse.make 200
              (comments1.find? (fun d => d._id == commentId))
              "Comment updated successfully"),
           { db with comments := comments1 },
           ["Comment.findById", "Comment.findByIdAndUpdate"])

/-- `deleteComment`: id shape check, existence (404), ownership (403),
deletion. -/
def deleteComment (commentId : String) (userId : ObjId) (db : DB) :
    HOut Unit × DB × List String :=
  if !(isValidObjectId commentId) then
    (.thrown ⟨400, "Invalid comment ID"⟩, db, [])
  else
    match db.comments.find? (fun c => c._id == commentId) with
    | none => (.thrown ⟨404, "Comment not found"⟩, db, ["Comment.findById"])
    | some c =>
        if c.owner != userId then
          (.thrown ⟨403, "You are not authorized to delete this comment"⟩,
           db, ["Comment.findById"])
        else
          (.json 200 (APIResponse.make 200 () "Comment deleted successfully"),
           { db with
              comments := db.comments.filter (fun d => d._id != commentId) },
           ["Comment.findById", "Comment.findByIdAndDelete"])

/-- JavaScript `a || b` on an optional string default: the empty string is
falsy, so `none` and `some ""` both fall back to the default. -/
def jsOrElse (v : Option String) (dflt : String) : String :=
  match v with
  | none => dflt
  | some s => if s == "" then dflt else s

/-- `createPlaylist`: name check (blank → 400), then the insert with the
description defaulting to the empty string. -/
def createPlaylist (name description : Option String) (userId : ObjId)
    (db : DB) :
    HOut PlaylistDoc × DB × List String :=
  if isBlank name then
    (.thrown ⟨400, "Playlist name is required"⟩, db, [])
  else
    let p : PlaylistDoc :=
      ⟨newObjId db.nextId, name.getD "", jsOrElse description "", userId, [],
       db.now, db.now⟩
    (.json 201 (APIResponse.make 201 p "Playlist created successfully"),
     { db with playlists := db.playlists ++ [p], nextId := db.nextId + 1 },
     ["Playlist.create"])

/-- Read model item of `getUserPlaylists` after the final projection. -/
structure PlaylistListView where
  _id : ObjId
  name : String
  description : String
  totalVideos : Nat
  totalViews : Nat
  createdAt : Nat
  updatedAt : Nat
deriving Repr, DecidableEq

/-- Join/addFields/project part of the `getUserPlaylists` pipeline for one
playlist: join the referenced videos, count them and sum their views. -/
def playlistListJoin (db : DB) (p : PlaylistDoc) : PlaylistListView :=
  let joined := db.videos.filter (fun v => p.videos.contains v._id)
  ⟨p._id, p.name, p.description, joined.length, (joined.map VideoDoc.views).sum,
   p.createdAt, p.updatedAt⟩

/-- `getUserPlaylists`: match on owner, join videos, project totals.  The
pipeline has no `$sort` stage, so the storage (insertion) order of the
matching playlists is preserved. -/
def getUserPlaylists (userId : String) (db : DB) :
    HOut (List PlaylistListView) × DB × List String :=
  if !(isValidObjectId userId) then
    (.thrown ⟨400, "Invalid user ID"⟩, db, [])
  else
    let views :=
      (db.playlists.filter (fun p => p.owner == userId)).map
        (playlistListJoin db)
    (.json 200
      (APIResponse.make 200 views "User playlists fetched successfully"),
     db, ["Playlist.aggregate"])

/-- A video joined with its projected owner, as produced inside the
playlist-detail and liked-videos pipelines. -/
structure VideoWithOwner where
  video : VideoDoc
  owner : Option UserView
deriving Repr, DecidableEq

/-- Read model of `getPlaylistById` (addFields, no trimming projection). -/
structure PlaylistDetail where
  _id : ObjId
  name : String
  description : String
  videos : List VideoWithOwner
  owner : Option UserView
  totalVideos : Nat
  totalViews : Nat
  createdAt : Nat
  updatedAt : Nat
deriving Repr, DecidableEq

/-- Join part of the `getPlaylistById` pipeline for one playlist. -/
def playlistDetailJoin (db : DB) (p : PlaylistDoc) : PlaylistDetail :=
  let joined := db.videos.filter (fun v => p.videos.contains v._id)
  ⟨p._id, p.name, p.description,
   joined.map (fun v => ⟨v, ownerLookup db v.owner⟩),
   ownerLookup db p.owner,
   joined.length, (joined.map VideoDoc.views).sum,
   p.createdAt, p.updatedAt⟩

/-- `getPlaylistById`: id shape check, aggregation on `_id`, 404 when the
match is empty, otherwise the first (only) element. -/
def getPlaylistById (playlistId : String) (db : DB) :
    HOut PlaylistDetail × DB × List String :=
  if !(isValidObjectId playlistId) then
    (.thrown ⟨400, "Invalid playlist ID"⟩, db, [])
  else
    let matched :=
      (db.playlists.filter (fun p => p._id == playlistId)).map
        (playlistDetailJoin db)
    match matched with
    | [] => (.thrown ⟨404, "Playlist not found"⟩, db, ["Playlist.aggregate"])
    | v :: _ =>
        (.json 200 (APIResponse.make 200 v "Playlist fetched successfully"),
         db, ["Playlist.aggregate"])

/-- `addVideoToPlaylist`: both id shapes checked together (400), existence
(404), ownership (403), duplicate check (400, no write), then `$push`
appends the video id and the updated document is returned. -/
def addVideoToPlaylist (playlistId videoId : String) (userId : ObjId)
    (db : DB) :
    HOut (Option PlaylistDoc) × DB × List String :=
  if !(isValidObjectId playlistId) || !(isValidObjectId videoId) then
    (.thrown ⟨400, "Invalid playlist or video ID"⟩, db, [])
  else
    match db.playlists.find? (fun p => p._id == playlistId) with
    | none => (.thrown ⟨404, "Playlist not found"⟩, db, ["Playlist.findById"])
    | some p =>
        if p.owner != userId then
          (.thrown ⟨403, "You are not authorized to update this playlist"⟩,
           db, ["Playlist.findById"])
        else if p.videos.contains videoId then
          (.thrown ⟨400, "Video already exists in playlist"⟩,
           db, ["Playlist.findById"])
        else
          let playlists1 := updateById PlaylistDoc._id playlistId
            (fun d => { d with videos := d.videos ++ [videoId] }) db.playlists
          (.json 200
            (APIResponse.make 200
              (playlists1.find? (fun d => d._id == playlistId))
              "Video added to playlist successfully"),
           { db with playlists := playlists1 },
           ["Playlist.findById", "Playlist.findByIdAndUpdate"])

/-- `removeVideoFromPlaylist`: id shapes (400), existence (404), ownership
(403), then `$pull` removes every occurrence of the video id — with no
membership precondition, so removing an absent id is a 200 no-op. -/
def removeVideoFromPlaylist (playlistId videoId : String) (userId : ObjId)
    (db : DB) :
    HOut (Option PlaylistDoc) × DB × List String :=
  if !(isValidObjectId playlistId) || !(isValidObjectId videoId) then
    (.thrown ⟨400, "Invalid playlist or video ID"⟩, db, [])
  else
    match db.playlists.find? (fun p => p._id == playlistId) with
    | none => (.thrown ⟨404, "Playlist not found"⟩, db, ["Playlist.findById"])
    | some p =>
        if p.owner != userId then
          (.thrown ⟨403, "You are not authorized to update this playlist"⟩,
           db, ["Playlist.findById"])
        else
          let playlists1 := updateById PlaylistDoc._id playlistId
            (fun d => { d with videos := d.videos.filter (fun v => v != videoId) })
            db.playlists
          (.json 200
            (APIResponse.make 200
              (playlists1.find? (fun d => d._id == playlistId))
              "Video removed from playlist successfully"),
           { db with playlists := playlists1 },
           ["Playlist.findById", "Playlist.findByIdAndUpdate"])

/-- `deletePlaylist`: id shape (400), existence (404), ownership (403),
deletion. -/
def deletePlaylist (playlistId : String) (userId : ObjId) (db : DB) :
    HOut Unit × DB × List String :=
  if !(isValidObjectId playlistId) then
    (.thrown ⟨400, "Invalid playlist ID"⟩, db, [])
  else
    match db.playlists.find? (fun p => p._id == playlistId) with
    | none => (.thrown ⟨404, "Playlist not found"⟩, db, ["Playlist.findById"])
    | some p =>
        if p.owner != userId then
          (.thrown ⟨403, "You are not authorized to delete this playlist"⟩,
           db, ["Playlist.findById"])
        else
          (.json 200 (APIResponse.make 200 () "Playlist deleted successfully"),
           { db with
              playlists := db.playlists.filter (fun d => d._id != playlistId) },
           ["Playlist.findById", "Playlist.findByIdAndDelete"])

/-- `updatePlaylist`: name check first (blank → 400), then id shape (400),
existence (404), ownership (403), then the `$set` update; a missing or
empty description keeps the stored one (JS `||` fallback). -/
def updatePlaylist (playlistId : String) (name description : Option String)
    (userId : ObjId) (db : DB) :
    HOut (Option PlaylistDoc) × DB × List String :=
  if isBlank name then
    (.thrown ⟨400, "Playlist name is required"⟩, db, [])
  else if !(isValidObjectId playlistId) then
    (.thrown ⟨400, "Invalid playlist ID"⟩, db, [])
  else
    match db.playlists.find? (fun p => p._id == playlistId) with
    | none => (.thrown ⟨404, "Playlist not found"⟩, db, ["Playlist.findById"])
    | some p =>
        if p.owner != userId then
          (.thrown ⟨403, "You are not authorized to update this playlist"⟩,
           db, ["Playlist.findById"])
        else
          let playlists1 := updateById PlaylistDoc._id playlistId
            (fun d => { d with
              name := name.getD "",
              description := jsOrElse description p.description }) db.playlists
          (.json 200
            (APIResponse.make 200
              (playlists1.find? (fun d => d._id == playlistId))
              "Playlist updated successfully"),
           { db with playlists := playlists1 },
           ["Playlist.findById", "Playlist.findByIdAndUpdate"])

/-- JavaScript truthiness of an optional query-string value: present and
non-empty. -/
def truthy : Option String → Bool
  | none => false
  | some s => s != ""

/-- A sortable document field value (numeric or textual), for the dynamic
`sortBy` key of the video listing. -/
inductive FieldVal where
  | nat (n : Nat)
  | str (s : String)
deriving Repr, DecidableEq

/-- Total preorder on field values: numbers sort before strings, numbers by
numeric order, strings lexicographically. -/
def fieldValLe : FieldVal → FieldVal → Bool
  | .nat a, .nat b => Nat.ble a b
  | .str a, .str b => decide (a ≤ b)
  | .nat _, .str _ => true
  | .str _, .nat _ => false

/-- `fieldValLe` is total. -/
theorem fieldValLe_total (a b : FieldVal) :
    fieldValLe a b = true ∨ fieldValLe b a = true := by
  cases a <;> cases b <;> simp [fieldValLe, Nat.ble_eq] <;>
    first
      | omega
      | exact le_total _ _

/-- `fieldValLe` is transitive. -/
theorem fieldValLe_trans (a b c : FieldVal)
    (h1 : fieldValLe a b = true) (h2 : fieldValLe b c = true) :
    fieldValLe a c = true := by
  cases a <;> cases b <;> cases c <;>
    simp [fieldValLe, Nat.ble_eq] at h1 h2 ⊢ <;>
    first
      | omega
      | exact le_trans h1 h2

/-- The named field of a video document, as a sortable value; an unknown
field name behaves as a missing (null-like) field. -/
def videoField (name : String) (v : VideoDoc) : FieldVal :=
  if name == "title" then .str v.title
  else if name == "description" then .str v.description
  else if name == "duration" then .nat v.duration
  else if name == "views" then .nat v.views
  else if name == "createdAt" then .nat v.createdAt
  else if name == "updatedAt" then .nat v.updatedAt
  else .nat 0

/-- The comparison installed by the video-listing sort stage: the caller's
field ascending when `sortType` is `asc`, descending otherwise; when either
`sortBy` or `sortType` is absent, `createdAt` descending. -/
def videoSortLe (sortBy sortType : Option String) (a b : VideoDoc) : Bool :=
  if truthy sortBy && truthy sortType then
    if sortType == some "asc" then
      fieldValLe (videoField (sortBy.getD "") a) (videoField (sortBy.getD "") b)
    else
      fieldValLe (videoField (sortBy.getD "") b) (videoField (sortBy.getD "") a)
  else
    descBy VideoDoc.createdAt a b

/-- Read model item of the video listing: the document with its collapsed
owner object. -/
structure VideoListItem where
  video : VideoDoc
  owner : Option UserView
deriving Repr, DecidableEq

/-- `getAllVideos`: optional external `$search` stage (executed by the
storage engine's text index, modelled as the predicate `searchIndex`),
optional owner filter (after validating `userId`), published-only filter,
dynamic sort, owner join, pagination. -/
def getAllVideos (page limit : Nat) (query : Option String)
    (searchIndex : String → VideoDoc → Bool)
    (sortBy sortType : Option String) (userId : Option String) (db : DB) :
    HOut (Paginated VideoListItem) × DB × List String :=
  if truthy userId && !(isValidObjectId (userId.getD "")) then
    (.thrown ⟨400, "Invalid user ID"⟩, db, [])
  else
    let s0 := if truthy query then
        db.videos.filter (searchIndex (query.getD ""))
      else db.videos
    let s1 := if truthy userId then
        s0.filter (fun v => v.owner == userId.getD "")
      else s0
    let s2 := s1.filter VideoDoc.isPublished
    let sorted := sortLe (videoSortLe sortBy sortType) s2
    let items := sorted.map (fun v => VideoListItem.mk v (ownerLookup db v.owner))
    (.json 200
      (APIResponse.make 200 (aggregatePaginate items page limit)
        "Videos fetched successfully"),
     db, ["Video.aggregatePaginate"])

/-- The owner object of the video-detail read model, with subscription
aggregates. -/
structure ChannelView where
  _id : ObjId
  username : String
  fullName : String
  avatar : String
  subscribersCount : Nat
  isSubscribed : Bool
deriving Repr, DecidableEq

/-- The video-detail read model after the final projection. -/
structure VideoDetail where
  _id : ObjId
  videoFile : String
  thumbnail : String
  title : String
  description : String
  duration : Nat
  views : Nat
  owner : Option ChannelView
  likesCount : Nat
  isLiked : Bool
  createdAt : Nat
  updatedAt : Nat
deriving Repr, DecidableEq

/-- Join/addFields/project part of the video-detail pipeline for one video:
likes of the video, owner with subscriber count and requester-membership
tests, like count and requester like-membership. -/
def videoDetailJoin (db : DB) (requester : ObjId) (v : VideoDoc) :
    VideoDetail :=
  let likes := db.likes.filter (fun l => l.video == some v._id)
  let ownerArr := (db.users.filter (fun u => u._id == v.owner)).map (fun u =>
    let subscribers := db.subs.filter (fun s => s.channel == u._id)
    ChannelView.mk u._id u.username u.fullName u.avatar subscribers.length
      ((subscribers.map SubDoc.subscriber).contains requester))
  ⟨v._id, v.videoFile, v.thumbnail, v.title, v.description, v.duration,
   v.views, ownerArr.head?, likes.length,
   ((likes.map LikeDoc.likedBy).contains requester), v.createdAt, v.updatedAt⟩

/-- `getVideoById`: id shape check (400), aggregation on `_id`, 404 when
empty; on success the stored view counter is incremented by one *after* the
read model is assembled, and the pre-increment read model is returned. -/
def getVideoById (videoId : String) (userId : ObjId) (db : DB) :
    HOut VideoDetail × DB × List String :=
  if !(isValidObjectId videoId) then
    (.thrown ⟨400, "Invalid video ID"⟩, db, [])
  else
    let matched :=
      (db.videos.filter (fun v => v._id == videoId)).map
        (videoDetailJoin db userId)
    match matched with
    | [] => (.thrown ⟨404, "Video not found"⟩, db, ["Video.aggregate"])
    | d :: _ =>
        (.json 200 (APIResponse.make 200 d "Video fetched successfully"),
         { db with
            videos := updateById VideoDoc._id videoId
              (fun v => { v with views := v.views + 1 }) db.videos },
         ["Video.aggregate", "Video.findByIdAndUpdate"])

/-- Result of one external upload (`uploadOnCloudinary`). -/
structure UploadRes where
  url : String
  duration : Nat
deriving Repr, DecidableEq

/-- `updateVideo`: id shape (400), title check (400), existence (404),
ownership (403), optional thumbnail upload (500 on upload failure), then
the `$set` update; missing/empty description and absent new thumbnail keep
the stored values (JS `||` fallbacks). -/
def updateVideo (videoId : String) (title description : Option String)
    (thumbnailLocalPath : Option String)
    (upload : String → Option UploadRes) (userId : ObjId) (db : DB) :
    HOut (Option VideoDoc) × DB × List String :=
  if !(isValidObjectId videoId) then
    (.thrown ⟨400, "Invalid video ID"⟩, db, [])
  else if isBlank title then
    (.thrown ⟨400, "Video title is required"⟩, db, [])
  else
    match db.videos.find? (fun v => v._id == videoId) with
    | none => (.thrown ⟨404, "Video not found"⟩, db, ["Video.findById"])
    | some v =>
        if v.owner != userId then
          (.thrown ⟨403, "You are not authorized to update this video"⟩,
           db, ["Video.findById"])
        else
          match thumbnailLocalPath with
          | some path =>
              match upload path with
              | none =>
                  (.thrown ⟨500, "Failed to upload thumbnail"⟩,
                   db, ["Video.findById", "uploadOnCloudinary"])
              | some up =>
                  let videos1 := updateById VideoDoc._id videoId
                    (fun d => { d with
                      title := title.getD "",
                      description := jsOrElse description v.description,
                      thumbnail := jsOrElse (some up.url) v.thumbnail })
                    db.videos
                  (.json 200
                    (APIResponse.make 200
                      (videos1.find? (fun d => d._id == videoId))
                      "Video updated successfully"),
                   { db with videos := videos1 },
                   ["Video.findById", "uploadOnCloudinary",
                    "Video.findByIdAndUpdate"])
          | none =>
              let videos1 := updateById VideoDoc._id videoId
                (fun d => { d with
                  title := title.getD "",
                  description := jsOrElse description v.description })
                db.videos
              (.json 200
                (APIResponse.make 200
                  (videos1.find? (fun d => d._id == videoId))
                  "Video updated successfully"),
               { db with videos := videos1 },
               ["Video.findById", "Video.findByIdAndUpdate"])

/-- `deleteVideo`: id shape (400), existence (404), ownership (403),
deletion. -/
def deleteVideo (videoId : String) (userId : ObjId) (db : DB) :
    HOut Unit × DB × List String :=
  if !(isValidObjectId videoId) then
    (.thrown ⟨400, "Invalid video ID"⟩, db, [])
  else
    match db.videos.find? (fun v => v._id == videoId) with
    | none => (.thrown ⟨404, "Video not found"⟩, db, ["Video.findById"])
    | some v =>
        if v.owner != userId then
          (.thrown ⟨403, "You are not authorized to delete this video"⟩,
           db, ["Video.findById"])
        else
          (.json 200 (APIResponse.make 200 () "Video deleted successfully"),
           { db with videos := db.videos.filter (fun d => d._id != videoId) },
           ["Video.findById", "Video.findByIdAndDelete"])

/-- `togglePublishStatus`: id shape (400), existence (404), ownership
(403), then `$set isPublished := !stored`; the message reflects the new
state. -/
def togglePublishStatus (videoId : String) (userId : ObjId) (db : DB) :
    HOut (Option VideoDoc) × DB × List String :=
  if !(isValidObjectId videoId) then
    (.thrown ⟨400, "Invalid video ID"⟩, db, [])
  else
    match db.videos.find? (fun v => v._id == videoId) with
    | none => (.thrown ⟨404, "Video not found"⟩, db, ["Video.findById"])
    | some v =>
        if v.owner != userId then
          (.thrown ⟨403, "You are not authorized to update this video"⟩,
           db, ["Video.findById"])
        else
          let videos1 := updateById VideoDoc._id videoId
            (fun d => { d with isPublished := !v.isPublished }) db.videos
          let updated := videos1.find? (fun d => d._id == videoId)
          (.json 200
            (APIResponse.make 200 updated
              (if (updated.map VideoDoc.isPublished).getD false then
                "Video published successfully"
               else "Video unpublished successfully")),
           { db with videos := videos1 },
           ["Video.findById", "Video.findByIdAndUpdate"])

/-- Read model item of `getLikedVideos` after the final projection: the
joined video (with its owner) and the like's creation time. -/
structure LikedVideoView where
  video : Option VideoWithOwner
  createdAt : Nat
deriving Repr, DecidableEq

/-- `getLikedVideos`: match the requester's video-likes, join the video
(itself joined with its owner), collapse with `$first`, project, sort by
the like's `createdAt` descending. -/
def getLikedVideos (userId : ObjId) (db : DB) :
    HOut (List LikedVideoView) × DB × List String :=
  let matched := db.likes.filter
    (fun l => l.likedBy == userId && l.video.isSome)
  let joined := matched.map (fun l =>
    LikedVideoView.mk
      (((db.videos.filter (fun v => some v._id == l.video)).map
        (fun v => VideoWithOwner.mk v (ownerLookup db v.owner))).head?)
      l.createdAt)
  let sorted := sortLe (descBy LikedVideoView.createdAt) joined
  (.json 200
    (APIResponse.make 200 sorted "Liked videos fetched successfully"),
   db, ["Like.aggregate"])

/-- Two members of a list of length at most one coincide. -/
theorem length_le_one_mem_eq {α : Type} {l : List α} {a b : α}
    (h : l.length ≤ 1) (ha : a ∈ l) (hb : b ∈ l) : a = b := by
  match l with
  | [] => cases ha
  | [x] =>
      rw [List.mem_singleton] at ha hb
      rw [ha, hb]
  | x :: y :: t => simp at h

/-- A `find?` miss follows from an `any` miss. -/
theorem find?_eq_none_of_any_eq_false {α : Type} (p : α → Bool) (l : List α)
    (h : l.any p = false) : l.find? p = none := by
  rw [List.find?_eq_none]
  rw [List.any_eq_false] at h
  exact h

/-- Deleting the found record by `_id` clears the pair when the store holds
at most one matching record. -/
theorem delete_found_clears (likes : List LikeDoc) (p : LikeDoc → Bool)
    (l : LikeDoc) (hfind : likes.find? p = some l)
    (huniq : (likes.filter p).length ≤ 1) :
    (likes.filter (fun d => d._id != l._id)).any p = false := by
  rw [List.any_eq_false]
  intro m hm
  rw [List.mem_filter] at hm
  obtain ⟨hm_mem, hm_id⟩ := hm
  intro hpm
  have hl_mem : l ∈ likes := List.mem_of_find?_eq_some hfind
  have hpl : p l = true := List.find?_some hfind
  have h1 : l ∈ likes.filter p := List.mem_filter.2 ⟨hl_mem, hpl⟩
  have h2 : m ∈ likes.filter p := List.mem_filter.2 ⟨hm_mem, hpm⟩
  have hml : m = l := length_le_one_mem_eq huniq h2 h1
  rw [hml] at hm_id
  simp at hm_id

/-- With unique `_id`s, deleting by the `_id` of a member removes exactly
one record. -/
theorem length_filter_ne_id (likes : List LikeDoc) (i : Nat)
    (hnodup : (likes.map LikeDoc._id).Nodup)
    (l : LikeDoc) (hmem : l ∈ likes) (hid : l._id = i) :
    (likes.filter (fun d => d._id != i)).length + 1 = likes.length := by
  induction likes with
  | nil => cases hmem
  | cons d ds ih =>
      rw [List.map_cons, List.nodup_cons] at hnodup
      obtain ⟨hd, hds⟩ := hnodup
      rcases List.mem_cons.1 hmem with rfl | hmem2
      · rw [List.filter_cons_of_neg (by simp [hid])]
        have hall : ∀ x ∈ ds, (x._id != i) = true := by
          intro x hx
          have hxm : x._id ∈ ds.map LikeDoc._id := List.mem_map_of_mem _ hx
          simp only [bne_iff_ne, ne_eq]
          intro hxi
          rw [hxi, ← hid] at hxm
          exact hd hxm
        rw [List.filter_eq_self.2 hall]
        simp
      · by_cases hdi : (d._id != i) = true
        · have hstep : List.filter (fun d => d._id != i) (d :: ds) =
              d :: List.filter (fun d => d._id != i) ds := by
            simp [List.filter_cons, hdi]
          have hih := ih hds hmem2
          rw [hstep, List.length_cons, List.length_cons]
          omega
        · exfalso
          simp only [bne_iff_ne, ne_eq, not_not] at hdi
          have hxm : l._id ∈ ds.map LikeDoc._id := List.mem_map_of_mem _ hmem2
          rw [hid, ← hdi] at hxm
          exact hd hxm

/-- The outcomes of three successive video-like toggles by the same
requester on the same target, each starting from the previous state. -/
def toggleVideoLike3 (vid uid : ObjId) (db : DB) :
    HOut IsLikedData × HOut IsLikedData × HOut IsLikedData :=
  let r1 := toggleVideoLike vid uid db
  let r2 := toggleVideoLike vid uid r1.2.1
  let r3 := toggleVideoLike vid uid r2.2.1
  (r1.1, r2.1, r3.1)

/-- Three successive comment-like toggles. -/
def toggleCommentLike3 (cid uid : ObjId) (db : DB) :
    HOut IsLikedData × HOut IsLikedData × HOut IsLikedData :=
  let r1 := toggleCommentLike cid uid db
  let r2 := toggleCommentLike cid uid r1.2.1
  let r3 := toggleCommentLike cid uid r2.2.1
  (r1.1, r2.1, r3.1)

/-- Three successive tweet-like toggles. -/
def toggleTweetLike3 (tid uid : ObjId) (db : DB) :
    HOut IsLikedData × HOut IsLikedData × HOut IsLikedData :=
  let r1 := toggleTweetLike tid uid db
  let r2 := toggleTweetLike tid uid r1.2.1
  let r3 := toggleTweetLike tid uid r2.2.1
  (r1.1, r2.1, r3.1)


/-- Behaviour of `toggleVideoLike` on an absent pair: full equation. -/
theorem toggleVideoLike_absent_eq (db : DB) (vid uid : ObjId)
    (hv : isValidObjectId vid = true)
    (h : isLikedVideoState db vid uid = false) :
    toggleVideoLike vid uid db =
      (.json 201 (APIResponse.make 201 ⟨true⟩ "Video liked successfully"),
       { db with
          likes := db.likes ++
            [⟨db.nextLikeId, some vid, none, none, uid, db.now⟩],
          nextLikeId := db.nextLikeId + 1 },
       ["Like.findOne", "Like.create"]) := by
  have h2 : db.likes.any (likeMatchesVideo vid uid) = false := h
  have hf := find?_eq_none_of_any_eq_false _ _ h2
  simp [toggleVideoLike, hv, hf]

/-- Behaviour of `toggleVideoLike` on a present pair: some matching record
is found and deleted by `_id`, and the reply is 200 `isLiked:false`. -/
theorem toggleVideoLike_present_eq (db : DB) (vid uid : ObjId)
    (hv : isValidObjectId vid = true)
    (h : isLikedVideoState db vid uid = true) :
    ∃ l, db.likes.find? (likeMatchesVideo vid uid) = some l ∧
      toggleVideoLike vid uid db =
        (.json 200 (APIResponse.make 200 ⟨false⟩ "Video unliked successfully"),
         { db with likes := db.likes.filter (fun d => d._id != l._id) },
         ["Like.findOne", "Like.findByIdAndDelete"]) := by
  have h2 : db.likes.any (likeMatchesVideo vid uid) = true := h
  have h3 : (db.likes.find? (likeMatchesVideo vid uid)).isSome := by
    rw [List.find?_isSome]
    rw [List.any_eq_true] at h2
    exact h2
  obtain ⟨l, hl⟩ := Option.isSome_iff_exists.1 h3
  exact ⟨l, hl, by simp [toggleVideoLike, hv, hl]⟩

/-- Absent pair: response component of the video toggle. -/
theorem toggleVideoLike_absent_out (db : DB) (vid uid : ObjId)
    (hv : isValidObjectId vid = true)
    (h : isLikedVideoState db vid uid = false) :
    (toggleVideoLike vid uid db).1 =
      .json 201 (APIResponse.make 201 ⟨true⟩ "Video liked successfully") := by
  rw [toggleVideoLike_absent_eq db vid uid hv h]

/-- Absent pair: one record is inserted. -/
theorem toggleVideoLike_absent_len (db : DB) (vid uid : ObjId)
    (hv : isValidObjectId vid = true)
    (h : isLikedVideoState db vid uid = false) :
    (toggleVideoLike vid uid db).2.1.likes.length = db.likes.length + 1 := by
  rw [toggleVideoLike_absent_eq db vid uid hv h]
  simp

/-- Absent pair: the pair is present afterwards. -/
theorem toggleVideoLike_absent_state (db : DB) (vid uid : ObjId)
    (hv : isValidObjectId vid = true)
    (h : isLikedVideoState db vid uid = false) :
    isLikedVideoState (toggleVideoLike vid uid db).2.1 vid uid = true := by
  rw [toggleVideoLike_absent_eq db vid uid hv h]
  show (db.likes ++ _).any _ = true
  rw [List.any_append]
  simp [likeMatchesVideo]

/-- Absent pair: afterwards the store holds exactly one record for the
pair. -/
theorem toggleVideoLike_absent_uniq (db : DB) (vid uid : ObjId)
    (hv : isValidObjectId vid = true)
    (h : isLikedVideoState db vid uid = false) :
    ((toggleVideoLike vid uid db).2.1.likes.filter
      (likeMatchesVideo vid uid)).length ≤ 1 := by
  rw [toggleVideoLike_absent_eq db vid uid hv h]
  show ((db.likes ++ _).filter _).length ≤ 1
  rw [List.filter_append]
  have h2 : db.likes.any (likeMatchesVideo vid uid) = false := h
  have hfil : db.likes.filter (likeMatchesVideo vid uid) = [] := by
    rw [List.filter_eq_nil_iff]
    rw [List.any_eq_false] at h2
    exact h2
  rw [hfil]
  simp [likeMatchesVideo]

/-- Present pair: response component of the video toggle. -/
theorem toggleVideoLike_present_out (db : DB) (vid uid : ObjId)
    (hv : isValidObjectId vid = true)
    (h : isLikedVideoState db vid uid = true) :
    (toggleVideoLike vid uid db).1 =
      .json 200 (APIResponse.make 200 ⟨false⟩ "Video unliked successfully") := by
  obtain ⟨l, hl, e⟩ := toggleVideoLike_present_eq db vid uid hv h
  rw [e]

/-- Present pair with app-enforced pair uniqueness: the pair is absent
afterwards. -/
theorem toggleVideoLike_present_state (db : DB) (vid uid : ObjId)
    (hv : isValidObjectId vid = true)
    (h : isLikedVideoState db vid uid = true)
    (huniq : (db.likes.filter (likeMatchesVideo vid uid)).length ≤ 1) :
    isLikedVideoState (toggleVideoLike vid uid db).2.1 vid uid = false := by
  obtain ⟨l, hl, e⟩ := toggleVideoLike_present_eq db vid uid hv h
  rw [e]
  exact delete_found_clears db.likes _ l hl huniq

/-- Present pair with unique `_id`s: exactly one record is removed. -/
theorem toggleVideoLike_present_len (db : DB) (vid uid : ObjId)
    (hv : isValidObjectId vid = true)
    (h : isLikedVideoState db vid uid = true)
    (hnodup : (db.likes.map LikeDoc._id).Nodup) :
    (toggleVideoLike vid uid db).2.1.likes.length + 1 = db.likes.length := by
  obtain ⟨l, hl, e⟩ := toggleVideoLike_present_eq db vid uid hv h
  rw [e]
  exact length_filter_ne_id db.likes l._id hnodup l
    (List.mem_of_find?_eq_some hl) rfl

/-- Three-call toggle cycle on a fresh (video, user) pair:
201 liked, 200 unliked, 201 liked. -/
theorem toggleVideoLike_cycle (db : DB) (vid uid : ObjId)
    (hv : isValidObjectId vid = true)
    (h : isLikedVideoState db vid uid = false) :
    toggleVideoLike3 vid uid db =
      (.json 201 (APIResponse.make 201 ⟨true⟩ "Video liked successfully"),
       .json 200 (APIResponse.make 200 ⟨false⟩ "Video unliked successfully"),
       .json 201 (APIResponse.make 201 ⟨true⟩ "Video liked successfully")) := by
  have s1 := toggleVideoLike_absent_state db vid uid hv h
  have u1 := toggleVideoLike_absent_uniq db vid uid hv h
  have s2 := toggleVideoLike_present_state _ vid uid hv s1 u1
  have o1 := toggleVideoLike_absent_out db vid uid hv h
  have o2 := toggleVideoLike_present_out _ vid uid hv s1
  have o3 := toggleVideoLike_absent_out _ vid uid hv s2
  simp only [toggleVideoLike3]
  rw [o1, o2, o3]

/-- Behaviour of `toggleCommentLike` on an absent pair: full equation. -/
theorem toggleCommentLike_absent_eq (db : DB) (cid uid : ObjId)
    (hv : isValidObjectId cid = true)
    (h : isLikedCommentState db cid uid = false) :
    toggleCommentLike cid uid db =
      (.json 201 (APIResponse.make 201 ⟨true⟩ "Comment liked successfully"),
       { db with
          likes := db.likes ++
            [⟨db.nextLikeId, none, some cid, none, uid, db.now⟩],
          nextLikeId := db.nextLikeId + 1 },
       ["Like.findOne", "Like.create"]) := by
  have h2 : db.likes.any (likeMatchesComment cid uid) = false := h
  have hf := find?_eq_none_of_any_eq_false _ _ h2
  simp [toggleCommentLike, hv, hf]

/-- Behaviour of `toggleCommentLike` on a present pair: some matching record
is found and deleted by `_id`, and the reply is 200 `isLiked:false`. -/
theorem toggleCommentLike_present_eq (db : DB) (cid uid : ObjId)
    (hv : isValidObjectId cid = true)
    (h : isLikedCommentState db cid uid = true) :
    ∃ l, db.likes.find? (likeMatchesComment cid uid) = some l ∧
      toggleCommentLike cid uid db =
        (.json 200 (APIResponse.make 200 ⟨false⟩ "Comment unliked successfully"),
         { db with likes := db.likes.filter (fun d => d._id != l._id) },
         ["Like.findOne", "Like.findByIdAndDelete"]) := by
  have h2 : db.likes.any (likeMatchesComment cid uid) = true := h
  have h3 : (db.likes.find? (likeMatchesComment cid uid)).isSome := by
    rw [List.find?_isSome]
    rw [List.any_eq_true] at h2
    exact h2
  obtain ⟨l, hl⟩ := Option.isSome_iff_exists.1 h3
  exact ⟨l, hl, by simp [toggleCommentLike, hv, hl]⟩

/-- Absent pair: response component of the comment toggle. -/
theorem toggleCommentLike_absent_out (db : DB) (cid uid : ObjId)
    (hv : isValidObjectId cid = true)
    (h : isLikedCommentState db cid uid = false) :
    (toggleCommentLike cid uid db).1 =
      .json 201 (APIResponse.make 201 ⟨true⟩ "Comment liked successfully") := by
  rw [toggleCommentLike_absent_eq db cid uid hv h]

/-- Absent pair: one record is inserted. -/
theorem toggleCommentLike_absent_len (db : DB) (cid uid : ObjId)
    (hv : isValidObjectId cid = true)
    (h : isLikedCommentState db cid uid = false) :
    (toggleCommentLike cid uid db).2.1.likes.length = db.likes.length + 1 := by
  rw [toggleCommentLike_absent_eq db cid uid hv h]
  simp

/-- Absent pair: the pair is present afterwards. -/
theorem toggleCommentLike_absent_state (db : DB) (cid uid : ObjId)
    (hv : isValidObjectId cid = true)
    (h : isLikedCommentState db cid uid = false) :
    isLikedCommentState (toggleCommentLike cid uid db).2.1 cid uid = true := by
  rw [toggleCommentLike_absent_eq db cid uid hv h]
  show (db.likes ++ _).any _ = true
  rw [List.any_append]
  simp [likeMatchesComment]

/-- Absent pair: afterwards the store holds exactly one record for the
pair. -/
theorem toggleCommentLike_absent_uniq (db : DB) (cid uid : ObjId)
    (hv : isValidObjectId cid = true)
    (h : isLikedCommentState db cid uid = false) :
    ((toggleCommentLike cid uid db).2.1.likes.filter
      (likeMatchesComment cid uid)).length ≤ 1 := by
  rw [toggleCommentLike_absent_eq db cid uid hv h]
  show ((db.likes ++ _).filter _).length ≤ 1
  rw [List.filter_append]
  have h2 : db.likes.any (likeMatchesComment cid uid) = false := h
  have hfil : db.likes.filter (likeMatchesComment cid uid) = [] := by
    rw [List.filter_eq_nil_iff]
    rw [List.any_eq_false] at h2
    exact h2
  rw [hfil]
  simp [likeMatchesComment]

/-- Present pair: response component of the comment toggle. -/
theorem toggleCommentLike_present_out (db : DB) (cid uid : ObjId)
    (hv : isValidObjectId cid = true)
    (h : isLikedCommentState db cid uid = true) :
    (toggleCommentLike cid uid db).1 =
      .json 200 (APIResponse.make 200 ⟨false⟩ "Comment unliked successfully") := by
  obtain ⟨l, hl, e⟩ := toggleCommentLike_present_eq db cid uid hv h
  rw [e]

/-- Present pair with app-enforced pair uniqueness: the pair is absent
afterwards. -/
theorem toggleCommentLike_present_state (db : DB) (cid uid : ObjId)
    (hv : isValidObjectId cid = true)
    (h : isLikedCommentState db cid uid = true)
    (huniq : (db.likes.filter (likeMatchesComment cid uid)).length ≤ 1) :
    isLikedCommentState (toggleCommentLike cid uid db).2.1 cid uid = false := by
  obtain ⟨l, hl, e⟩ := toggleCommentLike_present_eq db cid uid hv h
  rw [e]
  exact delete_found_clears db.likes _ l hl huniq

/-- Present pair with unique `_id`s: exactly one record is removed. -/
theorem toggleCommentLike_present_len (db : DB) (cid uid : ObjId)
    (hv : isValidObjectId cid = true)
    (h : isLikedCommentState db cid uid = true)
    (hnodup : (db.likes.map LikeDoc._id).Nodup) :
    (toggleCommentLike cid uid db).2.1.likes.length + 1 = db.likes.length := by
  obtain ⟨l, hl, e⟩ := toggleCommentLike_present_eq db cid uid hv h
  rw [e]
  exact length_filter_ne_id db.likes l._id hnodup l
    (List.mem_of_find?_eq_some hl) rfl

/-- Three-call toggle cycle on a fresh (comment, user) pair:
201 liked, 200 unliked, 201 liked. -/
theorem toggleCommentLike_cycle (db : DB) (cid uid : ObjId)
    (hv : isValidObjectId cid = true)
    (h : isLikedCommentState db cid uid = false) :
    toggleCommentLike3 cid uid db =
      (.json 201 (APIResponse.make 201 ⟨true⟩ "Comment liked successfully"),
       .json 200 (APIResponse.make 200 ⟨false⟩ "Comment unliked successfully"),
       .json 201 (APIResponse.make 201 ⟨true⟩ "Comment liked successfully")) := by
  have s1 := toggleCommentLike_absent_state db cid uid hv h
  have u1 := toggleCommentLike_absent_uniq db cid uid hv h
  have s2 := toggleCommentLike_present_state _ cid uid hv s1 u1
  have o1 := toggleCommentLike_absent_out db cid uid hv h
  have o2 := toggleCommentLike_present_out _ cid uid hv s1
  have o3 := toggleCommentLike_absent_out _ cid uid hv s2
  simp only [toggleCommentLike3]
  rw [o1, o2, o3]

/-- Behaviour of `toggleTweetLike` on an absent pair: full equation. -/
theorem toggleTweetLike_absent_eq (db : DB) (tid uid : ObjId)
    (hv : isValidObjectId tid = true)
    (h : isLikedTweetState db tid uid = false) :
    toggleTweetLike tid uid db =
      (.json 201 (APIResponse.make 201 ⟨true⟩ "Tweet liked successfully"),
       { db with
          likes := db.likes ++
            [⟨db.nextLikeId, none, none, some tid, uid, db.now⟩],
          nextLikeId := db.nextLikeId + 1 },
       ["Like.findOne", "Like.create"]) := by
  have h2 : db.likes.any (likeMatchesTweet tid uid) = false := h
  have hf := find?_eq_none_of_any_eq_false _ _ h2
  simp [toggleTweetLike, hv, hf]

/-- Behaviour of `toggleTweetLike` on a present pair: some matching record
is found and deleted by `_id`, and the reply is 200 `isLiked:false`. -/
theorem toggleTweetLike_present_eq (db : DB) (tid uid : ObjId)
    (hv : isValidObjectId tid = true)
    (h : isLikedTweetState db tid uid = true) :
    ∃ l, db.likes.find? (likeMatchesTweet tid uid) = some l ∧
      toggleTweetLike tid uid db =
        (.json 200 (APIResponse.make 200 ⟨false⟩ "Tweet unliked successfully"),
         { db with likes := db.likes.filter (fun d => d._id != l._id) },
         ["Like.findOne", "Like.findByIdAndDelete"]) := by
  have h2 : db.likes.any (likeMatchesTweet tid uid) = true := h
  have h3 : (db.likes.find? (likeMatchesTweet tid uid)).isSome := by
    rw [List.find?_isSome]
    rw [List.any_eq_true] at h2
    exact h2
  obtain ⟨l, hl⟩ := Option.isSome_iff_exists.1 h3
  exact ⟨l, hl, by simp [toggleTweetLike, hv, hl]⟩

/-- Absent pair: response component of the tweet toggle. -/
theorem toggleTweetLike_absent_out (db : DB) (tid uid : ObjId)
    (hv : isValidObjectId tid = true)
    (h : isLikedTweetState db tid uid = false) :
    (toggleTweetLike tid uid db).1 =
      .json 201 (APIResponse.make 201 ⟨true⟩ "Tweet liked successfully") := by
  rw [toggleTweetLike_absent_eq db tid uid hv h]

/-- Absent pair: one record is inserted. -/
theorem toggleTweetLike_absent_len (db : DB) (tid uid : ObjId)
    (hv : isValidObjectId tid = true)
    (h : isLikedTweetState db tid uid = false) :
    (toggleTweetLike tid uid db).2.1.likes.length = db.likes.length + 1 := by
  rw [toggleTweetLike_absent_eq db tid uid hv h]
  simp

/-- Absent pair: the pair is present afterwards. -/
theorem toggleTweetLike_absent_state (db : DB) (tid uid : ObjId)
    (hv : isValidObjectId tid = true)
    (h : isLikedTweetState db tid uid = false) :
    isLikedTweetState (toggleTweetLike tid uid db).2.1 tid uid = true := by
  rw [toggleTweetLike_absent_eq db tid uid hv h]
  show (db.likes ++ _).any _ = true
  rw [List.any_append]
  simp [likeMatchesTweet]

/-- Absent pair: afterwards the store holds exactly one record for the
pair. -/
theorem toggleTweetLike_absent_uniq (db : DB) (tid uid : ObjId)
    (hv : isValidObjectId tid = true)
    (h : isLikedTweetState db tid uid = false) :
    ((toggleTweetLike tid uid db).2.1.likes.filter
      (likeMatchesTweet tid uid)).length ≤ 1 := by
  rw [toggleTweetLike_absent_eq db tid uid hv h]
  show ((db.likes ++ _).filter _).length ≤ 1
  rw [List.filter_append]
  have h2 : db.likes.any (likeMatchesTweet tid uid) = false := h
  have hfil : db.likes.filter (likeMatchesTweet tid uid) = [] := by
    rw [List.filter_eq_nil_iff]
    rw [List.any_eq_false] at h2
    exact h2
  rw [hfil]
  simp [likeMatchesTweet]

/-- Present pair: response component of the tweet toggle. -/
theorem toggleTweetLike_present_out (db : DB) (tid uid : ObjId)
    (hv : isValidObjectId tid = true)
    (h : isLikedTweetState db tid uid = true) :
    (toggleTweetLike tid uid db).1 =
      .json 200 (APIResponse.make 200 ⟨false⟩ "Tweet unliked successfully") := by
  obtain ⟨l, hl, e⟩ := toggleTweetLike_present_eq db tid uid hv h
  rw [e]

/-- Present pair with app-enforced pair uniqueness: the pair is absent
afterwards. -/
theorem toggleTweetLike_present_state (db : DB) (tid uid : ObjId)
    (hv : isValidObjectId tid = true)
    (h : isLikedTweetState db tid uid = true)
    (huniq : (db.likes.filter (likeMatchesTweet tid uid)).length ≤ 1) :
    isLikedTweetState (toggleTweetLike tid uid db).2.1 tid uid = false := by
  obtain ⟨l, hl, e⟩ := toggleTweetLike_present_eq db tid uid hv h
  rw [e]
  exact delete_found_clears db.likes _ l hl huniq

/-- Present pair with unique `_id`s: exactly one record is removed. -/
theorem toggleTweetLike_present_len (db : DB) (tid uid : ObjId)
    (hv : isValidObjectId tid = true)
    (h : isLikedTweetState db tid uid = true)
    (hnodup : (db.likes.map LikeDoc._id).Nodup) :
    (toggleTweetLike tid uid db).2.1.likes.length + 1 = db.likes.length := by
  obtain ⟨l, hl, e⟩ := toggleTweetLike_present_eq db tid uid hv h
  rw [e]
  exact length_filter_ne_id db.likes l._id hnodup l
    (List.mem_of_find?_eq_some hl) rfl

/-- Three-call toggle cycle on a fresh (tweet, user) pair:
201 liked, 200 unliked, 201 liked. -/
theorem toggleTweetLike_cycle (db : DB) (tid uid : ObjId)
    (hv : isValidObjectId tid = true)
    (h : isLikedTweetState db tid uid = false) :
    toggleTweetLike3 tid uid db =
      (.json 201 (APIResponse.make 201 ⟨true⟩ "Tweet liked successfully"),
       .json 200 (APIResponse.make 200 ⟨false⟩ "Tweet unliked successfully"),
       .json 201 (APIResponse.make 201 ⟨true⟩ "Tweet liked successfully")) := by
  have s1 := toggleTweetLike_absent_state db tid uid hv h
  have u1 := toggleTweetLike_absent_uniq db tid uid hv h
  have s2 := toggleTweetLike_present_state _ tid uid hv s1 u1
  have o1 := toggleTweetLike_absent_out db tid uid hv h
  have o2 := toggleTweetLike_present_out _ tid uid hv s1
  have o3 := toggleTweetLike_absent_out _ tid uid hv s2
  simp only [toggleTweetLike3]
  rw [o1, o2, o3]

/-- Sample user (owner of the sample documents). -/
def exUser1 : UserDoc := ⟨"user00000001", "alice", "Alice A", "a.png"⟩

/-- Second sample user (non-owner requester). -/
def exUser2 : UserDoc := ⟨"user00000002", "bob", "Bob B", "b.png"⟩

/-- Sample published video owned by the first user. -/
def exVideo1 : VideoDoc :=
  ⟨"video0000001", "v.mp4", "t.png", "First video", "d", 60, 5, true,
   "user00000001", 10, 10⟩

/-- Sample tweet owned by the first user. -/
def exTweet1 : TweetDoc := ⟨"tweet0000001", "hello", "user00000001", 5⟩

/-- Sample comment owned by the first user. -/
def exComment1 : CommentDoc :=
  ⟨"comment00001", "nice", "video0000001", "user00000001", 7⟩

/-- Sample playlist created first (earliest `createdAt`). -/
def exPlaylist1 : PlaylistDoc :=
  ⟨"playlist0001", "Mix", "", "user00000001", ["video0000001"], 3, 3⟩

/-- Sample playlist created second, stored after the first. -/
def exPlaylist2 : PlaylistDoc :=
  ⟨"playlist0002", "Other", "", "user00000001", [], 9, 9⟩

/-- A concrete database snapshot used to instantiate the contracts. -/
def exDB : DB :=
  ⟨[exUser1, exUser2], [exVideo1], [exTweet1], [exComment1],
   [exPlaylist1, exPlaylist2], [], [], 0, 0, 100⟩

/-- C1: every like toggle (video, comment, tweet) on a well-formed id is
presence-based: an absent (target, requester) pair inserts one record and
answers 201 with `isLiked:true`; a present pair deletes the record (exactly
one, given unique ids and the app-enforced at-most-one-per-pair invariant)
and answers 200 with `isLiked:false`; three successive toggles on a fresh
pair answer 201 `isLiked:true`, 200 `isLiked:false`, 201 `isLiked:true`;
the liked state is the presence of the record, never a stored flag. -/
theorem like_toggle_contract (db : DB) (vid cid tid : String) (uid : ObjId)
    (hv : isValidObjectId vid = true)
    (hc : isValidObjectId cid = true)
    (ht : isValidObjectId tid = true) :
    (isLikedVideoState db vid uid = false →
      (toggleVideoLike vid uid db).1 =
        .json 201 (APIResponse.make 201 ⟨true⟩ "Video liked successfully") ∧
      (toggleVideoLike vid uid db).2.1.likes.length = db.likes.length + 1 ∧
      isLikedVideoState (toggleVideoLike vid uid db).2.1 vid uid = true) ∧
    (isLikedVideoState db vid uid = true →
      (toggleVideoLike vid uid db).1 =
        .json 200 (APIResponse.make 200 ⟨false⟩ "Video unliked successfully") ∧
      ((db.likes.map LikeDoc._id).Nodup →
        (toggleVideoLike vid uid db).2.1.likes.length + 1 = db.likes.length) ∧
      ((db.likes.filter (likeMatchesVideo vid uid)).length ≤ 1 →
        isLikedVideoState (toggleVideoLike vid uid db).2.1 vid uid = false)) ∧
    (isLikedCommentState db cid uid = false →
      (toggleCommentLike cid uid db).1 =
        .json 201 (APIResponse.make 201 ⟨true⟩ "Comment liked successfully") ∧
      (toggleCommentLike cid uid db).2.1.likes.length = db.likes.length + 1 ∧
      isLikedCommentState (toggleCommentLike cid uid db).2.1 cid uid = true) ∧
    (isLikedCommentState db cid uid = true →
      (toggleCommentLike cid uid db).1 =
        .json 200 (APIResponse.make 200 ⟨false⟩ "Comment unliked successfully") ∧
      ((db.likes.map LikeDoc._id).Nodup →
        (toggleCommentLike cid uid db).2.1.likes.length + 1 = db.likes.length) ∧
      ((db.likes.filter (likeMatchesComment cid uid)).length ≤ 1 →
        isLikedCommentState (toggleCommentLike cid uid db).2.1 cid uid = false)) ∧
    (isLikedTweetState db tid uid = false →
      (toggleTweetLike tid uid db).1 =
        .json 201 (APIResponse.make 201 ⟨true⟩ "Tweet liked successfully") ∧
      (toggleTweetLike tid uid db).2.1.likes.length = db.likes.length + 1 ∧
      isLikedTweetState (toggleTweetLike tid uid db).2.1 tid uid = true) ∧
    (isLikedTweetState db tid uid = true →
      (toggleTweetLike tid uid db).1 =
        .json 200 (APIResponse.make 200 ⟨false⟩ "Tweet unliked successfully") ∧
      ((db.likes.map LikeDoc._id).Nodup →
        (toggleTweetLike tid uid db).2.1.likes.length + 1 = db.likes.length) ∧
      ((db.likes.filter (likeMatchesTweet tid uid)).length ≤ 1 →
        isLikedTweetState (toggleTweetLike tid uid db).2.1 tid uid = false)) ∧
    (isLikedVideoState db vid uid = false →
      toggleVideoLike3 vid uid db =
        (.json 201 (APIResponse.make 201 ⟨true⟩ "Video liked successfully"),
         .json 200 (APIResponse.make 200 ⟨false⟩ "Video unliked successfully"),
         .json 201 (APIResponse.make 201 ⟨true⟩ "Video liked successfully"))) ∧
    (isLikedCommentState db cid uid = false →
      toggleCommentLike3 cid uid db =
        (.json 201 (APIResponse.make 201 ⟨true⟩ "Comment liked successfully"),
         .json 200 (APIResponse.make 200 ⟨false⟩ "Comment unliked successfully"),
         .json 201 (APIResponse.make 201 ⟨true⟩ "Comment liked successfully"))) ∧
    (isLikedTweetState db tid uid = false →
      toggleTweetLike3 tid uid db =
        (.json 201 (APIResponse.make 201 ⟨true⟩ "Tweet liked successfully"),
         .json 200 (APIResponse.make 200 ⟨false⟩ "Tweet unliked successfully"),
         .json 201 (APIResponse.make 201 ⟨true⟩ "Tweet liked successfully"))) := by
  refine ⟨?_, ?_, ?_, ?_, ?_, ?_, ?_, ?_, ?_⟩
  · intro h
    exact ⟨toggleVideoLike_absent_out db vid uid hv h,
           toggleVideoLike_absent_len db vid uid hv h,
           toggleVideoLike_absent_state db vid uid hv h⟩
  · intro h
    exact ⟨toggleVideoLike_present_out db vid uid hv h,
           fun hnodup => toggleVideoLike_present_len db vid uid hv h hnodup,
           fun huniq => toggleVideoLike_present_state db vid uid hv h huniq⟩
  · intro h
    exact ⟨toggleCommentLike_absent_out db cid uid hc h,
           toggleCommentLike_absent_len db cid uid hc h,
           toggleCommentLike_absent_state db cid uid hc h⟩
  · intro h
    exact ⟨toggleCommentLike_present_out db cid uid hc h,
           fun hnodup => toggleCommentLike_present_len db cid uid hc h hnodup,
           fun huniq => toggleCommentLike_present_state db cid uid hc h huniq⟩
  · intro h
    exact ⟨toggleTweetLike_absent_out db tid uid ht h,
           toggleTweetLike_absent_len db tid uid ht h,
           toggleTweetLike_absent_state db tid uid ht h⟩
  · intro h
    exact ⟨toggleTweetLike_present_out db tid uid ht h,
           fun hnodup => toggleTweetLike_present_len db tid uid ht h hnodup,
           fun huniq => toggleTweetLike_present_state db tid uid ht h huniq⟩
  · intro h
    exact toggleVideoLike_cycle db vid uid hv h
  · intro h
    exact toggleCommentLike_cycle db cid uid hc h
  · intro h
    exact toggleTweetLike_cycle db tid uid ht h

/-- Concrete instantiation of the like-toggle contract: in the sample
database the (video, second user) pair is fresh and the three-call cycle
answers 201/200/201. -/
theorem like_toggle_contract_witness :
    isValidObjectId "video0000001" = true ∧
    isLikedVideoState exDB "video0000001" "user00000002" = false ∧
    toggleVideoLike3 "video0000001" "user00000002" exDB =
      (.json 201 (APIResponse.make 201 ⟨true⟩ "Video liked successfully"),
       .json 200 (APIResponse.make 200 ⟨false⟩ "Video unliked successfully"),
       .json 201 (APIResponse.make 201 ⟨true⟩ "Video liked successfully")) := by
  refine ⟨by decide, by decide, ?_⟩
  exact (like_toggle_contract exDB "video0000001" "comment00001"
    "tweet0000001" "user00000002" (by decide) (by decide)
    (by decide)).2.2.2.2.2.2.1 (by decide)

/-- The request was rejected with a 400 error, the database is unchanged
and no storage operation was executed. -/
def rejected400 {α : Type} (r : HOut α × DB × List String) (db : DB) : Prop :=
  (∃ m, r.1 = .thrown ⟨400, m⟩) ∧ r.2.1 = db ∧ r.2.2 = []

/-- C7: every operation taking an identifier parameter rejects a malformed
identifier with a 400 before any storage access: the database is unchanged
and the storage trace is empty.  (For the video listing the optional
`userId` filter is only consulted when non-empty, matching the source's JS
truthiness check.) -/
theorem invalid_id_rejected_before_storage (db : DB) (badId : String)
    (uid : ObjId) (h : isValidObjectId badId = false) :
    rejected400 (toggleVideoLike badId uid db) db ∧
    rejected400 (toggleCommentLike badId uid db) db ∧
    rejected400 (toggleTweetLike badId uid db) db ∧
    rejected400 (getUserPlaylists badId db) db ∧
    rejected400 (getPlaylistById badId db) db ∧
    (∀ other, rejected400 (addVideoToPlaylist badId other uid db) db) ∧
    (∀ other, rejected400 (addVideoToPlaylist other badId uid db) db) ∧
    (∀ other, rejected400 (removeVideoFromPlaylist badId other uid db) db) ∧
    (∀ other, rejected400 (removeVideoFromPlaylist other badId uid db) db) ∧
    rejected400 (deletePlaylist badId uid db) db ∧
    (∀ name description,
      rejected400 (updatePlaylist badId name description uid db) db) ∧
    (∀ page limit, rejected400 (getVideoComments badId page limit db) db) ∧
    (∀ content, rejected400 (addComment badId content uid db) db) ∧
    (∀ content, rejected400 (updateComment badId content uid db) db) ∧
    rejected400 (deleteComment badId uid db) db ∧
    rejected400 (getUserTweets badId db) db ∧
    (∀ content, rejected400 (updateTweet badId content uid db) db) ∧
    rejected400 (deleteTweet badId uid db) db ∧
    (badId ≠ "" → ∀ page limit query searchIndex sortBy sortType,
      rejected400
        (getAllVideos page limit query searchIndex sortBy sortType
          (some badId) db) db) ∧
    rejected400 (getVideoById badId uid db) db ∧
    (∀ title description thumb upload,
      rejected400 (updateVideo badId title description thumb upload uid db) db) ∧
    rejected400 (deleteVideo badId uid db) db ∧
    rejected400 (togglePublishStatus badId uid db) db := by
  refine ⟨?_, ?_, ?_, ?_, ?_, ?_, ?_, ?_, ?_, ?_, ?_, ?_, ?_, ?_, ?_, ?_,
    ?_, ?_, ?_, ?_, ?_, ?_, ?_⟩
  · simp [rejected400, toggleVideoLike, h]
  · simp [rejected400, toggleCommentLike, h]
  · simp [rejected400, toggleTweetLike, h]
  · simp [rejected400, getUserPlaylists, h]
  · simp [rejected400, getPlaylistById, h]
  · intro other
    simp [rejected400, addVideoToPlaylist, h]
  · intro other
    simp [rejected400, addVideoToPlaylist, h]
  · intro other
    simp [rejected400, removeVideoFromPlaylist, h]
  · intro other
    simp [rejected400, removeVideoFromPlaylist, h]
  · simp [rejected400, deletePlaylist, h]
  · intro name description
    by_cases hb : isBlank name = true
    · simp [rejected400, updatePlaylist, hb]
    · rw [Bool.not_eq_true] at hb
      simp [rejected400, updatePlaylist, hb, h]
  · intro page limit
    simp [rejected400, getVideoComments, h]
  · intro content
    by_cases hb : isBlank content = true
    · simp [rejected400, addComment, hb]
    · rw [Bool.not_eq_true] at hb
      simp [rejected400, addComment, hb, h]
  · intro content
    by_cases hb : isBlank content = true
    · simp [rejected400, updateComment, hb]
    · rw [Bool.not_eq_true] at hb
      simp [rejected400, updateComment, hb, h]
  · simp [rejected400, deleteComment, h]
  · simp [rejected400, getUserTweets, h]
  · intro content
    by_cases hb : isBlank content = true
    · simp [rejected400, updateTweet, hb]
    · rw [Bool.not_eq_true] at hb
      simp [rejected400, updateTweet, hb, h]
  · simp [rejected400, deleteTweet, h]
  · intro hne page limit query searchIndex sortBy sortType
    have ht : truthy (some badId) = true := by simp [truthy, hne]
    simp [rejected400, getAllVideos, ht, h]
  · simp [rejected400, getVideoById, h]
  · intro title description thumb upload
    simp [rejected400, updateVideo, h]
  · simp [rejected400, deleteVideo, h]
  · simp [rejected400, togglePublishStatus, h]

/-- Concrete instantiation of the malformed-identifier rejection: the
string "x" is not a valid ObjectId and the video toggle leaves the sample
database untouched with an empty storage trace. -/
theorem invalid_id_rejected_before_storage_witness :
    isValidObjectId "x" = false ∧
    rejected400 (toggleVideoLike "x" "user00000001" exDB) exDB := by
  refine ⟨by decide, ?_⟩
  exact (invalid_id_rejected_before_storage exDB "x" "user00000001"
    (by decide)).1

/-- The request failed with the given status and the database snapshot is
unchanged. -/
def failsUnchanged {α : Type} (r : HOut α × DB × List String) (db : DB)
    (status : Nat) : Prop :=
  (∃ m, r.1 = .thrown ⟨status, m⟩) ∧ r.2.1 = db

/-- C2: every mutating/deleting operation on Tweet, Playlist, Comment and
Video with well-formed identifiers (and, where required, valid text
fields): when no record with the identifier exists the operation fails 404
(regardless of any ownership), and when the record exists but its stored
owner differs from the requester it fails 403 with the stored data
unchanged — the existence check precedes the ownership check, and no
mutation happens before the ownership check passes. -/
theorem owner_check_contract (db : DB) (i j : String) (uid : ObjId)
    (hi : isValidObjectId i = true) (hj : isValidObjectId j = true) :
    (∀ content, isBlank content = false →
      (db.tweets.find? (fun t => t._id == i) = none →
        failsUnchanged (updateTweet i content uid db) db 404) ∧
      (∀ t, db.tweets.find? (fun t => t._id == i) = some t → t.owner ≠ uid →
        failsUnchanged (updateTweet i content uid db) db 403)) ∧
    ((db.tweets.find? (fun t => t._id == i) = none →
        failsUnchanged (deleteTweet i uid db) db 404) ∧
     (∀ t, db.tweets.find? (fun t => t._id == i) = some t → t.owner ≠ uid →
        failsUnchanged (deleteTweet i uid db) db 403)) ∧
    (∀ content, isBlank content = false →
      (db.comments.find? (fun c => c._id == i) = none →
        failsUnchanged (updateComment i content uid db) db 404) ∧
      (∀ c, db.comments.find? (fun c => c._id == i) = some c → c.owner ≠ uid →
        failsUnchanged (updateComment i content uid db) db 403)) ∧
    ((db.comments.find? (fun c => c._id == i) = none →
        failsUnchanged (deleteComment i uid db) db 404) ∧
     (∀ c, db.comments.find? (fun c => c._id == i) = some c → c.owner ≠ uid →
        failsUnchanged (deleteComment i uid db) db 403)) ∧
    (∀ name description, isBlank name = false →
      (db.playlists.find? (fun p => p._id == i) = none →
        failsUnchanged (updatePlaylist i name description uid db) db 404) ∧
      (∀ p, db.playlists.find? (fun p => p._id == i) = some p →
        p.owner ≠ uid →
        failsUnchanged (updatePlaylist i name description uid db) db 403)) ∧
    ((db.playlists.find? (fun p => p._id == i) = none →
        failsUnchanged (deletePlaylist i uid db) db 404) ∧
     (∀ p, db.playlists.find? (fun p => p._id == i) = some p → p.owner ≠ uid →
        failsUnchanged (deletePlaylist i uid db) db 403)) ∧
    ((db.playlists.find? (fun p => p._id == i) = none →
        failsUnchanged (addVideoToPlaylist i j uid db) db 404) ∧
     (∀ p, db.playlists.find? (fun p => p._id == i) = some p → p.owner ≠ uid →
        failsUnchanged (addVideoToPlaylist i j uid db) db 403)) ∧
    ((db.playlists.find? (fun p => p._id == i) = none →
        failsUnchanged (removeVideoFromPlaylist i j uid db) db 404) ∧
     (∀ p, db.playlists.find? (fun p => p._id == i) = some p → p.owner ≠ uid →
        failsUnchanged (removeVideoFromPlaylist i j uid db) db 403)) ∧
    (∀ title description thumb upload, isBlank title = false →
      (db.videos.find? (fun v => v._id == i) = none →
        failsUnchanged (updateVideo i title description thumb upload uid db)
          db 404) ∧
      (∀ v, db.videos.find? (fun v => v._id == i) = some v → v.owner ≠ uid →
        failsUnchanged (updateVideo i title description thumb upload uid db)
          db 403)) ∧
    ((db.videos.find? (fun v => v._id == i) = none →
        failsUnchanged (deleteVideo i uid db) db 404) ∧
     (∀ v, db.videos.find? (fun v => v._id == i) = some v → v.owner ≠ uid →
        failsUnchanged (deleteVideo i uid db) db 403)) ∧
    ((db.videos.find? (fun v => v._id == i) = none →
        failsUnchanged (togglePublishStatus i uid db) db 404) ∧
     (∀ v, db.videos.find? (fun v => v._id == i) = some v → v.owner ≠ uid →
        failsUnchanged (togglePublishStatus i uid db) db 403)) := by
  refine ⟨?_, ?_, ?_, ?_, ?_, ?_, ?_, ?_, ?_, ?_, ?_⟩
  · intro content hb
    constructor
    · intro hfind
      simp [failsUnchanged, updateTweet, hi, hb, hfind]
    · intro t hfind hown
      simp [failsUnchanged, updateTweet, hi, hb, hfind, hown]
  · constructor
    · intro hfind
      simp [failsUnchanged, deleteTweet, hi, hfind]
    · intro t hfind hown
      simp [failsUnchanged, deleteTweet, hi, hfind, hown]
  · intro content hb
    constructor
    · intro hfind
      simp [failsUnchanged, updateComment, hi, hb, hfind]
    · intro c hfind hown
      simp [failsUnchanged, updateComment, hi, hb, hfind, hown]
  · constructor
    · intro hfind
      simp [failsUnchanged, deleteComment, hi, hfind]
    · intro c hfind hown
      simp [failsUnchanged, deleteComment, hi, hfind, hown]
  · intro name description hb
    constructor
    · intro hfind
      simp [failsUnchanged, updatePlaylist, hi, hb, hfind]
    · intro p hfind hown
      simp [failsUnchanged, updatePlaylist, hi, hb, hfind, hown]
  · constructor
    · intro hfind
      simp [failsUnchanged, deletePlaylist, hi, hfind]
    · intro p hfind hown
      simp [failsUnchanged, deletePlaylist, hi, hfind, hown]
  · constructor
    · intro hfind
      simp [failsUnchanged, addVideoToPlaylist, hi, hj, hfind]
    · intro p hfind hown
      simp [failsUnchanged, addVideoToPlaylist, hi, hj, hfind, hown]
  · constructor
    · intro hfind
      simp [failsUnchanged, removeVideoFromPlaylist, hi, hj, hfind]
    · intro p hfind hown
      simp [failsUnchanged, removeVideoFromPlaylist, hi, hj, hfind, hown]
  · intro title description thumb upload hb
    constructor
    · intro hfind
      simp [failsUnchanged, updateVideo, hi, hb, hfind]
    · intro v hfind hown
      simp [failsUnchanged, updateVideo, hi, hb, hfind, hown]
  · constructor
    · intro hfind
      simp [failsUnchanged, deleteVideo, hi, hfind]
    · intro v hfind hown
      simp [failsUnchanged, deleteVideo, hi, hfind, hown]
  · constructor
    · intro hfind
      simp [failsUnchanged, togglePublishStatus, hi, hfind]
    · intro v hfind hown
      simp [failsUnchanged, togglePublishStatus, hi, hfind, hown]

/-- Concrete instantiation of the ownership contract: deleting the sample
tweet as the second user (not its owner) fails 403 with the database
unchanged, and deleting an absent tweet id fails 404. -/
theorem owner_check_contract_witness :
    isValidObjectId "tweet0000001" = true ∧
    exDB.tweets.find? (fun t => t._id == "tweet0000001") = some exTweet1 ∧
    exTweet1.owner ≠ "user00000002" ∧
    failsUnchanged (deleteTweet "tweet0000001" "user00000002" exDB) exDB 403 := by
  refine ⟨by decide, by decide, by decide, ?_⟩
  exact ((owner_check_contract exDB "tweet0000001" "video0000001"
    "user00000002" (by decide) (by decide)).2.1).2 exTweet1 (by decide)
    (by decide)

/-- `find?` returns the head of the filtered list. -/
theorem find?_eq_head_filter {α : Type} (p : α → Bool) (l : List α) :
    l.find? p = (l.filter p).head? := by
  induction l with
  | nil => rfl
  | cons d ds ih =>
      by_cases hd : p d = true
      · rw [List.find?_cons_of_pos _ hd, List.filter_cons, if_pos hd]
        rfl
      · rw [List.find?_cons_of_neg _ (by simp [hd]), List.filter_cons,
          if_neg (by simp [hd])]
        exact ih

/-- `findByIdAndUpdate` and `findById` commute: looking the id up after an
id-preserving in-place update returns the updated document. -/
theorem find?_updateById {α : Type} (getId : α → ObjId) (i : ObjId)
    (f : α → α) (l : List α) (hpres : ∀ d, getId (f d) = getId d) :
    (updateById getId i f l).find? (fun d => getId d == i) =
      (l.find? (fun d => getId d == i)).map f := by
  induction l with
  | nil => rfl
  | cons d ds ih =>
      by_cases hd : (getId d == i) = true
      · have hfd : (getId (f d) == i) = true := by rw [hpres]; exact hd
        rw [updateById, List.map_cons, if_pos hd]
        simp only [List.find?_cons, hfd, hd]
        rfl
      · rw [updateById, List.map_cons, if_neg hd]
        simp only [List.find?_cons, hd]
        exact ih

/-- The stored view counter of the first video document with the given id,
if any. -/
def storedViews (db : DB) (vid : ObjId) : Option Nat :=
  (db.videos.find? (fun v => v._id == vid)).map VideoDoc.views

/-- Full equation of a successful video-detail fetch: the returned read
model is assembled from the pre-state and then the stored counter is
incremented. -/
theorem getVideoById_success_eq (db : DB) (vid : String) (uid : ObjId)
    (hv : isValidObjectId vid = true) (v : VideoDoc)
    (hfind : db.videos.find? (fun d => d._id == vid) = some v) :
    getVideoById vid uid db =
      (.json 200 (APIResponse.make 200 (videoDetailJoin db uid v)
        "Video fetched successfully"),
       { db with
          videos := updateById VideoDoc._id vid
            (fun w => { w with views := w.views + 1 }) db.videos },
       ["Video.aggregate", "Video.findByIdAndUpdate"]) := by
  have hhead : (db.videos.filter (fun d => d._id == vid)).head? = some v := by
    rw [← find?_eq_head_filter]
    exact hfind
  obtain ⟨rest, hrest⟩ :
      ∃ rest, db.videos.filter (fun d => d._id == vid) = v :: rest := by
    cases hfil : db.videos.filter (fun d => d._id == vid) with
    | nil => rw [hfil] at hhead; simp at hhead
    | cons a t =>
        rw [hfil] at hhead
        simp only [List.head?_cons, Option.some_inj] at hhead
        exact ⟨t, by rw [hhead]⟩
  simp [getVideoById, hv, hrest]

/-- After a successful fetch the stored document for the id is the old one
with one more view. -/
theorem getVideoById_incr_find? (db : DB) (vid : String) (uid : ObjId)
    (hv : isValidObjectId vid = true) (v : VideoDoc)
    (hfind : db.videos.find? (fun d => d._id == vid) = some v) :
    (getVideoById vid uid db).2.1.videos.find? (fun d => d._id == vid) =
      some { v with views := v.views + 1 } := by
  rw [getVideoById_success_eq db vid uid hv v hfind]
  show (updateById VideoDoc._id vid
    (fun w => { w with views := w.views + 1 }) db.videos).find? _ = _
  rw [find?_updateById VideoDoc._id vid
    (fun w => { w with views := w.views + 1 }) db.videos (fun d => rfl), hfind]
  rfl

/-- C3: a successful video-detail fetch increments the stored view counter
of that video by exactly one, for any requester identity; two consecutive
fetches (by any two requesters) increment it by exactly two. -/
theorem video_fetch_increments_views (db : DB) (vid : String)
    (uid1 uid2 : ObjId) (hv : isValidObjectId vid = true) (v : VideoDoc)
    (hfind : db.videos.find? (fun d => d._id == vid) = some v) :
    ((getVideoById vid uid1 db).1 =
      .json 200 (APIResponse.make 200 (videoDetailJoin db uid1 v)
        "Video fetched successfully")) ∧
    storedViews db vid = some v.views ∧
    storedViews (getVideoById vid uid1 db).2.1 vid = some (v.views + 1) ∧
    storedViews
      (getVideoById vid uid2 (getVideoById vid uid1 db).2.1).2.1 vid =
      some (v.views + 2) := by
  have e1 := getVideoById_success_eq db vid uid1 hv v hfind
  have hfind1 := getVideoById_incr_find? db vid uid1 hv v hfind
  have hfind2 := getVideoById_incr_find? _ vid uid2 hv _ hfind1
  refine ⟨by rw [e1], ?_, ?_, ?_⟩
  · rw [storedViews, hfind]
    rfl
  · rw [storedViews, hfind1]
    rfl
  · rw [storedViews, hfind2]
    rfl

/-- Concrete instantiation of the view-increment contract: fetching the
sample video twice (by two different users) takes its stored views from 5
to 7. -/
theorem video_fetch_increments_views_witness :
    exDB.videos.find? (fun d => d._id == "video0000001") = some exVideo1 ∧
    storedViews exDB "video0000001" = some 5 ∧
    storedViews
      (getVideoById "video0000001" "user00000002"
        (getVideoById "video0000001" "user00000001" exDB).2.1).2.1
      "video0000001" = some 7 := by
  refine ⟨by decide, by decide, ?_⟩
  exact (video_fetch_increments_views exDB "video0000001" "user00000001"
    "user00000002" (by decide) exVideo1 (by decide)).2.2.2

/-- C9: the returned video-detail read model reports the pre-increment
stored views (the increment happens after the read model is assembled);
a malformed id (400) or an absent video (404) leaves the stored state
untouched. -/
theorem video_fetch_reports_preincrement_views (db : DB) (vid : String)
    (uid : ObjId) :
    (isValidObjectId vid = false →
      (getVideoById vid uid db).1 = .thrown ⟨400, "Invalid video ID"⟩ ∧
      (getVideoById vid uid db).2.1 = db) ∧
    (isValidObjectId vid = true →
      db.videos.find? (fun d => d._id == vid) = none →
      (getVideoById vid uid db).1 = .thrown ⟨404, "Video not found"⟩ ∧
      (getVideoById vid uid db).2.1 = db) ∧
    (isValidObjectId vid = true →
      ∀ v, db.videos.find? (fun d => d._id == vid) = some v →
      (getVideoById vid uid db).1 =
        .json 200 (APIResponse.make 200 (videoDetailJoin db uid v)
          "Video fetched successfully") ∧
      (videoDetailJoin db uid v).views = v.views ∧
      storedViews db vid = some v.views) := by
  refine ⟨?_, ?_, ?_⟩
  · intro hbad
    constructor <;> simp [getVideoById, hbad]
  · intro hv hfind
    have hfil : db.videos.filter (fun d => d._id == vid) = [] := by
      rw [List.filter_eq_nil_iff]
      rw [List.find?_eq_none] at hfind
      exact hfind
    constructor <;> simp [getVideoById, hv, hfil]
  · intro hv v hfind
    refine ⟨by rw [getVideoById_success_eq db vid uid hv v hfind], rfl, ?_⟩
    rw [storedViews, hfind]
    rfl

/-- Concrete instantiation of the pre-increment report: fetching the
sample video returns views 5 while the increment is applied afterwards,
and fetching a well-formed but absent id changes nothing. -/
theorem video_fetch_reports_preincrement_views_witness :
    exDB.videos.find? (fun d => d._id == "video0000001") = some exVideo1 ∧
    (videoDetailJoin exDB "user00000002" exVideo1).views = 5 ∧
    (getVideoById "video0000002" "user00000002" exDB).2.1 = exDB := by
  refine ⟨by decide, ?_, ?_⟩
  · exact ((video_fetch_reports_preincrement_views exDB "video0000001"
      "user00000002").2.2 (by decide) exVideo1 (by decide)).2.1
  · exact ((video_fetch_reports_preincrement_views exDB "video0000002"
      "user00000002").2.1 (by decide) (by decide)).2

/-- Repeating an id-targeted in-place update is a no-op when the update
function is idempotent and id-preserving. -/
theorem updateById_idem {α : Type} (getId : α → ObjId) (i : ObjId)
    (f : α → α) (hpres : ∀ d, getId (f d) = getId d)
    (hidem : ∀ d, f (f d) = f d) (l : List α) :
    updateById getId i f (updateById getId i f l) =
      updateById getId i f l := by
  rw [updateById, updateById, List.map_map]
  refine congrArg (fun g => List.map g l) (funext (fun d => ?_))
  simp only [Function.comp_apply]
  by_cases hd : (getId d == i) = true
  · rw [if_pos hd]
    have hfd : (getId (f d) == i) = true := by rw [hpres]; exact hd
    rw [if_pos hfd]
    exact hidem d
  · rw [if_neg hd]
    exact if_neg hd

/-- Full equation of a successful playlist video addition (owner request,
well-formed ids, video not yet present). -/
theorem addVideoToPlaylist_success_eq (db : DB) (pid vid : String)
    (uid : ObjId) (hp : isValidObjectId pid = true)
    (hv : isValidObjectId vid = true) (p : PlaylistDoc)
    (hfind : db.playlists.find? (fun d => d._id == pid) = some p)
    (hown : p.owner = uid) (hdup : p.videos.contains vid = false) :
    addVideoToPlaylist pid vid uid db =
      (.json 200 (APIResponse.make 200
        (some { p with videos := p.videos ++ [vid] })
        "Video added to playlist successfully"),
       { db with
          playlists := updateById PlaylistDoc._id pid
            (fun d => { d with videos := d.videos ++ [vid] }) db.playlists },
       ["Playlist.findById", "Playlist.findByIdAndUpdate"]) := by
  have e : (updateById PlaylistDoc._id pid
      (fun d => { d with videos := d.videos ++ [vid] })
      db.playlists).find? (fun d => d._id == pid) =
      some { p with videos := p.videos ++ [vid] } := by
    rw [find?_updateById PlaylistDoc._id pid
      (fun d => { d with videos := d.videos ++ [vid] }) db.playlists
      (fun d => rfl), hfind]
    rfl
  have hdup2 : vid ∉ p.videos := by simpa using hdup
  simp [addVideoToPlaylist, hp, hv, hfind, hown, hdup2, e]

/-- Full equation of a successful playlist video removal (owner request,
well-formed ids; no membership precondition). -/
theorem removeVideoFromPlaylist_success_eq (db : DB) (pid vid : String)
    (uid : ObjId) (hp : isValidObjectId pid = true)
    (hv : isValidObjectId vid = true) (p : PlaylistDoc)
    (hfind : db.playlists.find? (fun d => d._id == pid) = some p)
    (hown : p.owner = uid) :
    removeVideoFromPlaylist pid vid uid db =
      (.json 200 (APIResponse.make 200
        (some { p with videos := p.videos.filter (fun v => v != vid) })
        "Video removed from playlist successfully"),
       { db with
          playlists := updateById PlaylistDoc._id pid
            (fun d => { d with videos := d.videos.filter (fun v => v != vid) })
            db.playlists },
       ["Playlist.findById", "Playlist.findByIdAndUpdate"]) := by
  have e : (updateById PlaylistDoc._id pid
      (fun d => { d with videos := d.videos.filter (fun v => v != vid) })
      db.playlists).find? (fun d => d._id == pid) =
      some { p with videos := p.videos.filter (fun v => v != vid) } := by
    rw [find?_updateById PlaylistDoc._id pid
      (fun d => { d with videos := d.videos.filter (fun v => v != vid) })
      db.playlists (fun d => rfl), hfind]
    rfl
  simp [removeVideoFromPlaylist, hp, hv, hfind, hown, e]

/-- C4: adding a video to one's own playlist with well-formed ids: if the
video id is already in the `videos` sequence the request fails 400 and the
database is unchanged; otherwise the id is appended exactly once at the
end, all earlier elements unchanged, and the updated document is
returned. -/
theorem playlist_add_video_contract (db : DB) (pid vid : String)
    (uid : ObjId) (hp : isValidObjectId pid = true)
    (hv : isValidObjectId vid = true) (p : PlaylistDoc)
    (hfind : db.playlists.find? (fun d => d._id == pid) = some p)
    (hown : p.owner = uid) :
    (p.videos.contains vid = true →
      (addVideoToPlaylist pid vid uid db).1 =
        .thrown ⟨400, "Video already exists in playlist"⟩ ∧
      (addVideoToPlaylist pid vid uid db).2.1 = db) ∧
    (p.videos.contains vid = false →
      (addVideoToPlaylist pid vid uid db).1 =
        .json 200 (APIResponse.make 200
          (some { p with videos := p.videos ++ [vid] })
          "Video added to playlist successfully") ∧
      (addVideoToPlaylist pid vid uid db).2.1.playlists.find?
        (fun d => d._id == pid) =
        some { p with videos := p.videos ++ [vid] }) := by
  constructor
  · intro hdup
    have hdup2 : vid ∈ p.videos := by simpa using hdup
    constructor <;> simp [addVideoToPlaylist, hp, hv, hfind, hown, hdup2]
  · intro hdup
    have e := addVideoToPlaylist_success_eq db pid vid uid hp hv p hfind
      hown hdup
    rw [e]
    refine ⟨rfl, ?_⟩
    show (updateById PlaylistDoc._id pid
      (fun d => { d with videos := d.videos ++ [vid] })
      db.playlists).find? _ = _
    rw [find?_updateById PlaylistDoc._id pid
      (fun d => { d with videos := d.videos ++ [vid] }) db.playlists
      (fun d => rfl), hfind]
    rfl

/-- Concrete instantiation of the add-video contract: re-adding the video
already in the sample playlist fails 400 leaving the database unchanged. -/
theorem playlist_add_video_contract_witness :
    exDB.playlists.find? (fun d => d._id == "playlist0001") =
      some exPlaylist1 ∧
    exPlaylist1.videos.contains "video0000001" = true ∧
    (addVideoToPlaylist "playlist0001" "video0000001" "user00000001"
      exDB).2.1 = exDB := by
  refine ⟨by decide, by decide, ?_⟩
  exact ((playlist_add_video_contract exDB "playlist0001" "video0000001"
    "user00000001" (by decide) (by decide) exPlaylist1 (by decide)
    (by decide)).1 (by decide)).2

/-- C10: removing a video id from one's own playlist succeeds with 200
even when the id is not in the `videos` sequence, leaving the sequence
unchanged; removal is idempotent on the stored state; this is asymmetric
to the add path, which rejects an already-present id with 400. -/
theorem playlist_remove_video_contract (db : DB) (pid vid : String)
    (uid : ObjId) (hp : isValidObjectId pid = true)
    (hv : isValidObjectId vid = true) (p : PlaylistDoc)
    (hfind : db.playlists.find? (fun d => d._id == pid) = some p)
    (hown : p.owner = uid) :
    (p.videos.contains vid = false →
      (removeVideoFromPlaylist pid vid uid db).1 =
        .json 200 (APIResponse.make 200 (some p)
          "Video removed from playlist successfully") ∧
      (removeVideoFromPlaylist pid vid uid db).2.1.playlists.find?
        (fun d => d._id == pid) = some p) ∧
    ((removeVideoFromPlaylist pid vid uid
        (removeVideoFromPlaylist pid vid uid db).2.1).2.1 =
      (removeVideoFromPlaylist pid vid uid db).2.1) ∧
    (p.videos.contains vid = true →
      (addVideoToPlaylist pid vid uid db).1 =
        .thrown ⟨400, "Video already exists in playlist"⟩ ∧
      (addVideoToPlaylist pid vid uid db).2.1 = db) := by
  have e1 := removeVideoFromPlaylist_success_eq db pid vid uid hp hv p
    hfind hown
  refine ⟨?_, ?_, ?_⟩
  · intro hnon
    have hnon2 : vid ∉ p.videos := by simpa using hnon
    have hall : ∀ x ∈ p.videos, (x != vid) = true := by
      intro x hx
      simp only [bne_iff_ne, ne_eq]
      intro hxv
      rw [hxv] at hx
      exact hnon2 hx
    have hfil : p.videos.filter (fun v => v != vid) = p.videos :=
      List.filter_eq_self.2 hall
    rw [e1]
    constructor
    · rw [hfil]
    · show (updateById PlaylistDoc._id pid
        (fun d => { d with videos := d.videos.filter (fun v => v != vid) })
        db.playlists).find? _ = _
      rw [find?_updateById PlaylistDoc._id pid
        (fun d => { d with videos := d.videos.filter (fun v => v != vid) })
        db.playlists (fun d => rfl), hfind]
      simp [hfil]
  · have hfind1 : (removeVideoFromPlaylist pid vid uid db).2.1.playlists.find?
        (fun d => d._id == pid) =
        some { p with videos := p.videos.filter (fun v => v != vid) } := by
      rw [e1]
      show (updateById PlaylistDoc._id pid
        (fun d => { d with videos := d.videos.filter (fun v => v != vid) })
        db.playlists).find? _ = _
      rw [find?_updateById PlaylistDoc._id pid
        (fun d => { d with videos := d.videos.filter (fun v => v != vid) })
        db.playlists (fun d => rfl), hfind]
      rfl
    have e2 := removeVideoFromPlaylist_success_eq
      (removeVideoFromPlaylist pid vid uid db).2.1 pid vid uid hp hv
      { p with videos := p.videos.filter (fun v => v != vid) } hfind1
      (by rw [← hown])
    rw [e2]
    show ({ (removeVideoFromPlaylist pid vid uid db).2.1 with
      playlists := updateById PlaylistDoc._id pid
        (fun d => { d with videos := d.videos.filter (fun v => v != vid) })
        (removeVideoFromPlaylist pid vid uid db).2.1.playlists } : DB) = _
    rw [e1]
    show ({ db with
      playlists := updateById PlaylistDoc._id pid
        (fun d => { d with videos := d.videos.filter (fun v => v != vid) })
        (updateById PlaylistDoc._id pid
          (fun d => { d with videos := d.videos.filter (fun v => v != vid) })
          db.playlists) } : DB) = _
    rw [updateById_idem PlaylistDoc._id pid
      (fun d => { d with videos := d.videos.filter (fun v => v != vid) })
      (fun d => rfl) (fun d => by simp [List.filter_filter])]
  · intro hdup
    have hdup2 : vid ∈ p.videos := by simpa using hdup
    constructor <;> simp [addVideoToPlaylist, hp, hv, hfind, hown, hdup2]

/-- Concrete instantiation of the remove-video contract: removing an id
absent from the second sample playlist still answers 200 and leaves the
stored sequence unchanged. -/
theorem playlist_remove_video_contract_witness :
    exDB.playlists.find? (fun d => d._id == "playlist0002") =
      some exPlaylist2 ∧
    exPlaylist2.videos.contains "video0000001" = false ∧
    (removeVideoFromPlaylist "playlist0002" "video0000001" "user00000001"
      exDB).1 =
      .json 200 (APIResponse.make 200 (some exPlaylist2)
        "Video removed from playlist successfully") := by
  refine ⟨by decide, by decide, ?_⟩
  exact ((playlist_remove_video_contract exDB "playlist0002" "video0000001"
    "user00000001" (by decide) (by decide) exPlaylist2 (by decide)
    (by decide)).1 (by decide)).1

/-- C5 counterexample: with both a malformed tweet id and blank content,
`updateTweet` raises the content-validation 400, not the shape-validation
one — the source checks the text field before the identifier shape. -/
theorem validation_order_counterexample :
    (updateTweet "x" (some "   ") "user00000001" exDB).1 =
      .thrown ⟨400, "Tweet content is required"⟩ ∧
    (updateTweet "x" (some "   ") "user00000001" exDB).1 ≠
      .thrown ⟨400, "Invalid tweet ID"⟩ := by
  constructor <;> decide

/-- C5 (amended): the tweet/comment/playlist content-mutating operations
validate the required text field before the identifier shape, so when both
the identifier is malformed and the text field is blank the 400 raised is
the content-validation error; only the video update validates identifier
shape first. -/
theorem validation_order_contract (db : DB) (badId : String) (uid : ObjId)
    (h : isValidObjectId badId = false) :
    (∀ content, isBlank content = true →
      (updateTweet badId content uid db).1 =
        .thrown ⟨400, "Tweet content is required"⟩) ∧
    (∀ content, isBlank content = true →
      (updateComment badId content uid db).1 =
        .thrown ⟨400, "Comment content is required"⟩) ∧
    (∀ content, isBlank content = true →
      (addComment badId content uid db).1 =
        .thrown ⟨400, "Comment content is required"⟩) ∧
    (∀ name description, isBlank name = true →
      (updatePlaylist badId name description uid db).1 =
        .thrown ⟨400, "Playlist name is required"⟩) ∧
    (∀ title description thumb upload,
      (updateVideo badId title description thumb upload uid db).1 =
        .thrown ⟨400, "Invalid video ID"⟩) := by
  refine ⟨?_, ?_, ?_, ?_, ?_⟩
  · intro content hb
    simp [updateTweet, hb]
  · intro content hb
    simp [updateComment, hb]
  · intro content hb
    simp [addComment, hb]
  · intro name description hb
    simp [updatePlaylist, hb]
  · intro title description thumb upload
    simp [updateVideo, h]

/-- Concrete instantiation of the validation-order contract: the video
update with a malformed id raises the shape error even when the title is
also blank. -/
theorem validation_order_contract_witness :
    isValidObjectId "x" = false ∧
    (updateVideo "x" (some "   ") none none (fun _ => none) "user00000001"
      exDB).1 = .thrown ⟨400, "Invalid video ID"⟩ := by
  refine ⟨by decide, ?_⟩
  exact (validation_order_contract exDB "x" "user00000001"
    (by decide)).2.2.2.2 (some "   ") none none (fun _ => none)

/-- C8: tweet/comment creation with missing, empty or whitespace-only
content fails 400 with the "content is required" message and stores
nothing; with non-blank content it answers 201 and stores the submitted
string verbatim (no trimming or alteration). -/
theorem creation_content_contract (db : DB) (vid : String) (uid : ObjId)
    (hv : isValidObjectId vid = true) :
    (∀ content, isBlank content = true →
      (createTweet content uid db).1 =
        .thrown ⟨400, "Tweet content is required"⟩ ∧
      (createTweet content uid db).2.1 = db) ∧
    (∀ content, isBlank content = true →
      (addComment vid content uid db).1 =
        .thrown ⟨400, "Comment content is required"⟩ ∧
      (addComment vid content uid db).2.1 = db) ∧
    (∀ s, isBlank (some s) = false →
      (createTweet (some s) uid db).1 =
        .json 201 (APIResponse.make 201 ⟨newObjId db.nextId, s, uid, db.now⟩
          "Tweet created successfully") ∧
      (createTweet (some s) uid db).2.1.tweets =
        db.tweets ++ [⟨newObjId db.nextId, s, uid, db.now⟩]) ∧
    (∀ s, isBlank (some s) = false →
      (addComment vid (some s) uid db).1 =
        .json 201 (APIResponse.make 201
          ⟨newObjId db.nextId, s, vid, uid, db.now⟩
          "Comment added successfully") ∧
      (addComment vid (some s) uid db).2.1.comments =
        db.comments ++ [⟨newObjId db.nextId, s, vid, uid, db.now⟩]) := by
  refine ⟨?_, ?_, ?_, ?_⟩
  · intro content hb
    constructor <;> simp [createTweet, hb]
  · intro content hb
    constructor <;> simp [addComment, hb]
  · intro s hb
    constructor <;> simp [createTweet, hb]
  · intro s hb
    constructor <;> simp [addComment, hb, hv]

/-- Concrete instantiation of the creation-content contract: whitespace
content is rejected with 400; content "hi" is stored exactly as "hi". -/
theorem creation_content_contract_witness :
    isBlank (some "   ") = true ∧
    isBlank (some "hi") = false ∧
    (createTweet (some "   ") "user00000001" exDB).1 =
      .thrown ⟨400, "Tweet content is required"⟩ ∧
    (createTweet (some "hi") "user00000001" exDB).2.1.tweets =
      exDB.tweets ++ [⟨newObjId 0, "hi", "user00000001", 100⟩] := by
  refine ⟨by decide, by decide, ?_, ?_⟩
  · exact ((creation_content_contract exDB "video0000001" "user00000001"
      (by decide)).1 (some "   ") (by decide)).1
  · exact ((creation_content_contract exDB "video0000001" "user00000001"
      (by decide)).2.2.1 "hi" (by decide)).2

/-- The creation times, in returned order, of a list-endpoint reply. -/
def ordersOf {α : Type} (key : α → Nat) : HOut (List α) → List Nat
  | .json _ env => env.data.map key
  | .thrown _ => []

/-- The creation times, in returned order, of a paginated reply's page. -/
def pageOrdersOf {α : Type} (key : α → Nat) : HOut (Paginated α) → List Nat
  | .json _ env => env.data.docs.map key
  | .thrown _ => []

/-- The values of the named sortable field, in returned order, of a video
listing reply. -/
def videoFieldOrder (name : String) :
    HOut (Paginated VideoListItem) → List FieldVal
  | .json _ env => env.data.docs.map (fun it => videoField name it.video)
  | .thrown _ => []

/-- The creation times, in returned order, of a user-playlists reply. -/
def playlistOrder : HOut (List PlaylistListView) → List Nat
  | .json _ env => env.data.map PlaylistListView.createdAt
  | .thrown _ => []

/-- `descBy` spells out to a flipped `≤` on the key. -/
theorem descBy_le {α : Type} (key : α → Nat) (a b : α)
    (h : descBy key a b = true) : key b ≤ key a := by
  simpa [descBy, Nat.ble_eq] using h

/-- Keys of a sorted list are pairwise related, for any relation implied
by the sorting comparison. -/
theorem pairwise_map_sortLe {α β : Type} (key : α → β) (r : β → β → Prop)
    (le : α → α → Bool)
    (total : ∀ a b, le a b = true ∨ le b a = true)
    (htr : ∀ a b c, le a b = true → le b c = true → le a c = true)
    (hcomp : ∀ a b, le a b = true → r (key a) (key b)) (l : List α) :
    ((sortLe le l).map key).Pairwise r := by
  rw [List.pairwise_map]
  exact (pairwise_sortLe total htr l).imp (fun h => hcomp _ _ h)

/-- A page slice of a pairwise-related list is pairwise related. -/
theorem pairwise_page {α : Type} (r : α → α → Prop) (l : List α)
    (n m : Nat) (h : l.Pairwise r) : ((l.drop n).take m).Pairwise r :=
  List.Pairwise.sublist
    (List.Sublist.trans (List.take_sublist _ _) (List.drop_sublist _ _)) h

/-- C6 counterexample: the user-playlists pipeline has no sort stage; in
the sample database the matching playlists come back in storage order with
ascending creation times 3, 9 — not sorted by creation time descending. -/
theorem list_sort_counterexample :
    playlistOrder (getUserPlaylists "user00000001" exDB).1 = [3, 9] ∧
    ¬ (([3, 9] : List Nat).Pairwise (fun a b => b ≤ a)) := by
  constructor <;> decide

/-- The video listing reply when the optional owner filter passes
validation: the published videos surviving the optional search and owner
filters, sorted by the dynamic comparison, joined with owners, paginated. -/
theorem getAllVideos_out (page limit : Nat) (query : Option String)
    (searchIndex : String → VideoDoc → Bool)
    (sortBy sortType : Option String) (userId : Option String) (db : DB)
    (hok : (truthy userId && !(isValidObjectId (userId.getD ""))) = false) :
    (getAllVideos page limit query searchIndex sortBy sortType userId db).1 =
      .json 200 (APIResponse.make 200 (aggregatePaginate
        ((sortLe (videoSortLe sortBy sortType)
          ((if truthy userId then
              (if truthy query then
                db.videos.filter (searchIndex (query.getD ""))
               else db.videos).filter (fun v => v.owner == userId.getD "")
            else
              (if truthy query then
                db.videos.filter (searchIndex (query.getD ""))
               else db.videos)).filter VideoDoc.isPublished)).map
          (fun v => VideoListItem.mk v (ownerLookup db v.owner)))
        page limit) "Videos fetched successfully") := by
  simp only [getAllVideos]
  rw [if_neg (by simp [hok])]

/-- C6 (amended): the user-tweets, video-comments and liked-videos read
models return their results sorted by creation time descending, and the
video listing sorts by the caller's field and direction when both are
supplied and by creation time descending otherwise; the user-playlists
pipeline, however, has no sort stage and returns the matching playlists in
storage order. -/
theorem list_read_models_sorted (db : DB) (u vidStr : String) (uid : ObjId)
    (page limit : Nat) (query : Option String)
    (searchIndex : String → VideoDoc → Bool)
    (sortBy sortType : Option String) (userIdFilter : Option String) :
    (ordersOf TweetView.createdAt (getUserTweets u db).1).Pairwise
      (fun a b => b ≤ a) ∧
    (pageOrdersOf CommentView.createdAt
      (getVideoComments vidStr page limit db).1).Pairwise
      (fun a b => b ≤ a) ∧
    (ordersOf LikedVideoView.createdAt (getLikedVideos uid db).1).Pairwise
      (fun a b => b ≤ a) ∧
    ((truthy sortBy && truthy sortType) = false →
      (pageOrdersOf (fun it => it.video.createdAt)
        (getAllVideos page limit query searchIndex sortBy sortType
          userIdFilter db).1).Pairwise (fun a b => b ≤ a)) ∧
    ((truthy sortBy && truthy sortType) = true → sortType = some "asc" →
      (videoFieldOrder (sortBy.getD "")
        (getAllVideos page limit query searchIndex sortBy sortType
          userIdFilter db).1).Pairwise
        (fun a b => fieldValLe a b = true)) ∧
    ((truthy sortBy && truthy sortType) = true → sortType ≠ some "asc" →
      (videoFieldOrder (sortBy.getD "")
        (getAllVideos page limit query searchIndex sortBy sortType
          userIdFilter db).1).Pairwise
        (fun a b => fieldValLe b a = true)) ∧
    (isValidObjectId u = true →
      playlistOrder (getUserPlaylists u db).1 =
        (db.playlists.filter (fun p => p.owner == u)).map
          PlaylistDoc.createdAt) := by
  refine ⟨?_, ?_, ?_, ?_, ?_, ?_, ?_⟩
  · by_cases hu : isValidObjectId u = true
    · have e : (getUserTweets u db).1 = .json 200 (APIResponse.make 200
        (sortLe (descBy TweetView.createdAt)
          ((db.tweets.filter (fun t => t.owner == u)).map (tweetJoin db)))
        "Tweets fetched successfully") := by
        simp [getUserTweets, hu]
      rw [e]
      simp only [ordersOf]
      exact pairwise_map_sortLe TweetView.createdAt _ _ (descBy_total _)
        (descBy_trans _) (fun a b h => descBy_le _ a b h) _
    · rw [Bool.not_eq_true] at hu
      have e : (getUserTweets u db).1 = .thrown ⟨400, "Invalid user ID"⟩ := by
        simp [getUserTweets, hu]
      rw [e]
      simp only [ordersOf]
      exact List.Pairwise.nil
  · by_cases hvs : isValidObjectId vidStr = true
    · have e : (getVideoComments vidStr page limit db).1 = .json 200
        (APIResponse.make 200 (aggregatePaginate
          (sortLe (descBy CommentView.createdAt)
            ((db.comments.filter (fun c => c.video == vidStr)).map
              (commentJoin db))) page limit)
          "Comments fetched successfully") := by
        simp [getVideoComments, hvs]
      rw [e]
      simp only [pageOrdersOf, APIResponse.make, aggregatePaginate]
      rw [List.map_take, List.map_drop]
      exact pairwise_page _ _ _ _
        (pairwise_map_sortLe CommentView.createdAt _ _ (descBy_total _)
          (descBy_trans _) (fun a b h => descBy_le _ a b h) _)
    · rw [Bool.not_eq_true] at hvs
      have e : (getVideoComments vidStr page limit db).1 =
          .thrown ⟨400, "Invalid video ID"⟩ := by
        simp [getVideoComments, hvs]
      rw [e]
      simp only [pageOrdersOf]
      exact List.Pairwise.nil
  · have e : (getLikedVideos uid db).1 = .json 200 (APIResponse.make 200
      (sortLe (descBy LikedVideoView.createdAt)
        ((db.likes.filter (fun l => l.likedBy == uid && l.video.isSome)).map
          (fun l => LikedVideoView.mk
            (((db.videos.filter (fun v => some v._id == l.video)).map
              (fun v => VideoWithOwner.mk v (ownerLookup db v.owner))).head?)
            l.createdAt)))
      "Liked videos fetched successfully") := by
      simp [getLikedVideos]
    rw [e]
    simp only [ordersOf]
    exact pairwise_map_sortLe LikedVideoView.createdAt _ _ (descBy_total _)
      (descBy_trans _) (fun a b h => descBy_le _ a b h) _
  · intro hns
    by_cases hg : (truthy userIdFilter &&
        !(isValidObjectId (userIdFilter.getD ""))) = true
    · have e : (getAllVideos page limit query searchIndex sortBy sortType
          userIdFilter db).1 = .thrown ⟨400, "Invalid user ID"⟩ := by
        simp only [getAllVideos]
        rw [if_pos (by simp [hg])]
      rw [e]
      simp only [pageOrdersOf]
      exact List.Pairwise.nil
    · rw [Bool.not_eq_true] at hg
      have e := getAllVideos_out page limit query searchIndex sortBy
        sortType userIdFilter db hg
      rw [e]
      simp only [pageOrdersOf, APIResponse.make, aggregatePaginate]
      rw [List.map_take, List.map_drop, List.map_map]
      have hsl : videoSortLe sortBy sortType = descBy VideoDoc.createdAt := by
        funext a b
        rw [videoSortLe, if_neg (by simp [hns])]
      rw [hsl]
      exact pairwise_page _ _ _ _
        (pairwise_map_sortLe _ _ _ (descBy_total _) (descBy_trans _)
          (fun a b h => descBy_le VideoDoc.createdAt a b h) _)
  · intro hts hasc
    by_cases hg : (truthy userIdFilter &&
        !(isValidObjectId (userIdFilter.getD ""))) = true
    · have e : (getAllVideos page limit query searchIndex sortBy sortType
          userIdFilter db).1 = .thrown ⟨400, "Invalid user ID"⟩ := by
        simp only [getAllVideos]
        rw [if_pos (by simp [hg])]
      rw [e]
      simp only [videoFieldOrder]
      exact List.Pairwise.nil
    · rw [Bool.not_eq_true] at hg
      have e := getAllVideos_out page limit query searchIndex sortBy
        sortType userIdFilter db hg
      rw [e]
      simp only [videoFieldOrder, APIResponse.make, aggregatePaginate]
      rw [List.map_take, List.map_drop, List.map_map]
      have hsl : videoSortLe sortBy sortType = fun a b =>
          fieldValLe (videoField (sortBy.getD "") a)
            (videoField (sortBy.getD "") b) := by
        funext a b
        rw [videoSortLe, if_pos (by simp [hts]), if_pos (by simp [hasc])]
      rw [hsl]
      refine pairwise_page _ _ _ _ (pairwise_map_sortLe _ _ _ ?_ ?_ ?_ _)
      · exact fun a b => fieldValLe_total _ _
      · exact fun a b c h1 h2 => fieldValLe_trans _ _ _ h1 h2
      · exact fun a b h => h
  · intro hts hne
    by_cases hg : (truthy userIdFilter &&
        !(isValidObjectId (userIdFilter.getD ""))) = true
    · have e : (getAllVideos page limit query searchIndex sortBy sortType
          userIdFilter db).1 = .thrown ⟨400, "Invalid user ID"⟩ := by
        simp only [getAllVideos]
        rw [if_pos (by simp [hg])]
      rw [e]
      simp only [videoFieldOrder]
      exact List.Pairwise.nil
    · rw [Bool.not_eq_true] at hg
      have e := getAllVideos_out page limit query searchIndex sortBy
        sortType userIdFilter db hg
      rw [e]
      simp only [videoFieldOrder, APIResponse.make, aggregatePaginate]
      rw [List.map_take, List.map_drop, List.map_map]
      have hsl : videoSortLe sortBy sortType = fun a b =>
          fieldValLe (videoField (sortBy.getD "") b)
            (videoField (sortBy.getD "") a) := by
        funext a b
        rw [videoSortLe, if_pos (by simp [hts]), if_neg (by simp [hne])]
      rw [hsl]
      refine pairwise_page _ _ _ _ (pairwise_map_sortLe _ _ _ ?_ ?_ ?_ _)
      · exact fun a b => fieldValLe_total _ _
      · exact fun a b c h1 h2 => fieldValLe_trans _ _ _ h2 h1
      · exact fun a b h => h
  · intro hu
    have e : (getUserPlaylists u db).1 = .json 200 (APIResponse.make 200
        ((db.playlists.filter (fun p => p.owner == u)).map
          (playlistListJoin db))
        "User playlists fetched successfully") := by
      simp [getUserPlaylists, hu]
    rw [e]
    simp only [playlistOrder, APIResponse.make, List.map_map]
    rfl

/-- Concrete instantiation of the read-model ordering contract: the sample
user's tweets come back sorted by creation time descending, while the
playlists come back in storage order. -/
theorem list_read_models_sorted_witness :
    (ordersOf TweetView.createdAt
      (getUserTweets "user00000001" exDB).1).Pairwise (fun a b => b ≤ a) ∧
    isValidObjectId "user00000001" = true ∧
    playlistOrder (getUserPlaylists "user00000001" exDB).1 =
      (exDB.playlists.filter (fun p => p.owner == "user00000001")).map
        PlaylistDoc.createdAt := by
  have h := list_read_models_sorted exDB "user00000001" "video0000001"
    "user00000001" 1 10 none (fun _ _ => false) none none none
  exact ⟨h.1, by decide, h.2.2.2.2.2.2 (by decide)⟩
